import Mathlib

/-!
A shallow embedding of the WebKit2 Qt compositing-proxy core
(`Source/WebKit2/UIProcess/qt/LayerTreeHostProxyQt.cpp`) together with the
threaded scrolling tree interface (`Source/WebCore/page/scrolling/ScrollingTree.h`),
and proofs about the queue discipline, scene-graph replication and event routing.

Modelling conventions:
  * `WebLayerID` is a `Nat`.  The value `0` is `InvalidWebLayerID`: the data
    model reserves 0 for "none", and the WTF integer `HashMap` backing
    `m_layers` reserves key 0 as its empty sentinel, so no layer node can ever
    be stored under id 0 and `layerByID 0` yields null.
  * Opaque geometry values (points, sizes, rects, matrices), bitmap handles and
    string names are modelled as opaque `Int` / `Nat` scalars: the code only
    ever copies them verbatim and compares rects for equality.
  * The heap of `GraphicsLayer` objects is modelled as an association list from
    layer id to node record; child lists, mask and replica pointers become id
    references.  `GraphicsLayer::removeFromParent` detaches a layer from its
    unique parent; it is modelled as filtering the id out of every child list.
  * A failed `ASSERT` / null-pointer dereference is modelled by the sticky
    `crashed` flag: command processing did not complete normally.
  * Outbound IPC (`RenderNextFrame`, `PurgeBackingStores`) is modelled as an
    append-only trace `sent`.
  * `WTF::currentTime()` is modelled by the constant state field `now`.
-/

/-- The three results of `ScrollingTree::tryToHandleWheelEvent`
(`ScrollingTree.h`, `enum EventResult`). -/
inductive EventResult
  | DidNotHandleEvent
  | DidHandleEvent
  | SendToMainThread
deriving DecidableEq, Repr

/-- Animation operations carried by a `WebLayerAnimation`
(`WebKit::WebLayerAnimation::operation`). -/
inductive AnimOperation
  | AddAnimation
  | RemoveAnimation
  | PauseAnimation
deriving DecidableEq, Repr

/-- One animation record of `WebLayerInfo.animations`. -/
structure WebLayerAnimation where
  operation : AnimOperation
  name : Nat
  startTime : Int
  boxSize : Int
  keyframeList : Int
  animationBody : Int
deriving DecidableEq, Repr

/-- The layer descriptor carried by a `SyncLayerParameters` message
(`WebLayerInfo` in `WebLayerTreeInfo.h`; exactly the fields read by
`LayerTreeHostProxy::syncLayerParameters`). -/
structure WebLayerInfo where
  id : Nat := 1
  name : Nat := 0
  replica : Nat := 0
  mask : Nat := 0
  pos : Int := 0
  size : Int := 0
  transform : Int := 0
  anchorPoint : Int := 0
  childrenTransform : Int := 0
  backfaceVisible : Bool := true
  contentsOpaque : Bool := false
  contentsRect : Int := 0
  drawsContent : Bool := false
  imageIsUpdated : Bool := false
  imageBackingStoreID : Int := 0
  masksToBounds : Bool := false
  isRootLayer : Bool := false
  opacity : Int := 1
  preserves3D : Bool := false
  children : List Nat := []
  animations : List WebLayerAnimation := []
deriving DecidableEq, Repr

/-- An entry of a layer's active animation set.  Modelled from the spec:
`GraphicsLayerTextureMapper`'s animation storage is not part of the sample;
the spec describes "an active animation set" keyed by name, where pausing
stores the offset "current time minus animation start time". -/
structure AnimationEntry where
  keyframeList : Int
  boxSize : Int
  animationBody : Int
  startTime : Int
  pauseOffset : Option Int
deriving DecidableEq, Repr

/-- One tile of a layer backing store.  Modelled from the spec:
`LayerBackingStore` is not part of the sample; the spec describes per-tile
state absent / created (scale bound) / has-pending-update / visible, with
last-write-wins pending content promoted to visible on swap. -/
structure TileState where
  scale : Int
  visible : Option (Int × Int × Int)
  pending : Option (Int × Int × Int)
deriving DecidableEq, Repr

/-- A layer's tiled backing store: a mapping from tile id to tile state.
Modelled from the spec (see `TileState`): `createTile` is idempotent if the
tile is already created, `updateTile` records the newest pending content for
an existing tile, `removeTile` discards visible and pending state, and
`swapBuffers` promotes every pending buffer to visible. -/
structure LayerBackingStore where
  tiles : List (Int × TileState)
deriving DecidableEq, Repr

/-- `LayerBackingStore::createTile(id, scale)`: registers an absent tile with
its scale; idempotent when the tile exists. -/
def storeCreateTile (tileID scale : Int) (st : LayerBackingStore) : LayerBackingStore :=
  if (st.tiles.find? (fun p => p.1 = tileID)).isSome then st
  else { tiles := st.tiles ++ [(tileID, { scale := scale, visible := none, pending := none })] }

/-- `LayerBackingStore::updateTile`: records the newest pending buffer for an
existing tile (last write wins); unknown tiles are left untouched. -/
def storeUpdateTile (tileID sourceRect targetRect bitmap : Int)
    (st : LayerBackingStore) : LayerBackingStore :=
  { tiles := st.tiles.map (fun p =>
      if p.1 = tileID then (p.1, { p.2 with pending := some (sourceRect, targetRect, bitmap) })
      else p) }

/-- `LayerBackingStore::removeTile`: discards both visible and pending state. -/
def storeRemoveTile (tileID : Int) (st : LayerBackingStore) : LayerBackingStore :=
  { tiles := st.tiles.filter (fun p => p.1 ≠ tileID) }

/-- Swap of a single tile: promote the pending buffer, if any, to visible. -/
def swapTile (t : TileState) : TileState :=
  match t.pending with
  | some v => { t with visible := some v, pending := none }
  | none => t

/-- `LayerBackingStore::swapBuffers`: promote every pending buffer of the
store to visible and clear the pending slots. -/
def swapStore (st : LayerBackingStore) : LayerBackingStore :=
  { tiles := st.tiles.map (fun p => (p.1, swapTile p.2)) }

/-- The mirrored `GraphicsLayer(TextureMapper)` node: exactly the attributes
written by `LayerTreeHostProxy::syncLayerParameters`, plus the backing store
and the directly-composited content assigned by `setContentsToMedia`. -/
structure GraphicsLayerNode where
  name : Nat := 0
  replica : Option Nat := none
  mask : Option Nat := none
  pos : Int := 0
  size : Int := 0
  transform : Int := 0
  anchorPoint : Int := 0
  childrenTransform : Int := 0
  backfaceVisible : Bool := true
  contentsOpaque : Bool := false
  contentsRect : Int := 0
  drawsContent : Bool := false
  masksToBounds : Bool := false
  opacity : Int := 1
  preserves3D : Bool := false
  children : List Nat := []
  contentsMedia : Option Int := none
  backingStore : Option LayerBackingStore := none
  animations : List (Nat × AnimationEntry) := []
deriving DecidableEq, Repr

/-- A freshly constructed `GraphicsLayerTextureMapper`
(`LayerTreeHostProxy::createLayer`): default-constructed attributes. -/
def defaultLayerNode : GraphicsLayerNode := {}

/-- Outbound messages to the web process
(`Messages::LayerTreeHost::RenderNextFrame` / `PurgeBackingStores`). -/
inductive OutMessage
  | RenderNextFrame
  | PurgeBackingStores
deriving DecidableEq, Repr

/-- The commands consumed by the renderer queue
(`LayerTreeMessageToRenderer::Type` with each message's payload). -/
inductive Msg
  | DeleteLayer (layerID : Nat)
  | CreateTile (layerID : Nat) (remoteTileID scale : Int)
  | RemoveTile (layerID : Nat) (remoteTileID : Int)
  | UpdateTile (layerID : Nat) (remoteTileID sourceRect targetRect bitmap : Int)
  | CreateImage (imageID bitmap : Int)
  | DestroyImage (imageID : Int)
  | SyncLayerParameters (layerInfo : WebLayerInfo)
  | FlushLayerChanges
  | SetRootLayer (layerID : Nat)
deriving DecidableEq, Repr

/-- The mutable state of a `LayerTreeHostProxy`:
`m_layers`, `m_rootLayerID`, `m_rootLayer` (the synthetic root container),
`m_directlyCompositedImages`, `m_backingStoresWithPendingBuffers`,
the outbound IPC trace, the assertion-failure flag, the texture mapper
liveness, and the ambient clock. -/
structure ProxyState where
  layers : List (Nat × GraphicsLayerNode) := []
  rootLayerID : Nat := 0
  rootContainer : Option GraphicsLayerNode := none
  images : List (Int × Int) := []
  pendingBuffers : List Nat := []
  sent : List OutMessage := []
  crashed : Bool := false
  textureMapperAlive : Bool := false
  now : Int := 0
deriving DecidableEq, Repr

/-- The state of a freshly constructed `LayerTreeHostProxy`
(`m_rootLayerID(0)`, everything else empty). -/
def initialProxyState : ProxyState := {}

/-- Lookup in `m_layers`.  Key 0 is `InvalidWebLayerID`; the WTF integer
hash map reserves 0 as its empty sentinel, so the lookup yields none. -/
def layersFind (layers : List (Nat × GraphicsLayerNode)) (id : Nat) : Option GraphicsLayerNode :=
  if id = 0 then none else (layers.find? (fun p => p.1 = id)).map (fun p => p.2)

/-- `LayerTreeHostProxy::layerByID`: `m_layers` lookup returning null for an
unknown id. -/
def layerByID (s : ProxyState) (id : Nat) : Option GraphicsLayerNode :=
  layersFind s.layers id

/-- `m_layers.add(id, node)`: WTF `HashMap::add` inserts only when the key is
absent (it never overwrites), and cannot store the reserved key 0. -/
def layersAdd (s : ProxyState) (id : Nat) (n : GraphicsLayerNode) : ProxyState :=
  if id = 0 ∨ (layersFind s.layers id).isSome then s
  else { s with layers := s.layers ++ [(id, n)] }

/-- Replace the node stored under `id` (mutation through the `GraphicsLayer`
pointer obtained from the map). -/
def updateNode (s : ProxyState) (id : Nat) (f : GraphicsLayerNode → GraphicsLayerNode) :
    ProxyState :=
  { s with layers := s.layers.map (fun p => if p.1 = id then (p.1, f p.2) else p) }

/-- A failed `ASSERT` / null dereference: command processing aborted. -/
def markCrashed (s : ProxyState) : ProxyState := { s with crashed := true }

/-- `GraphicsLayer::removeFromParent` for layer `c`: detach it from its
parent's child list (each layer has at most one parent, so filtering every
child list — the synthetic root container's included — is equivalent). -/
def detachAll (s : ProxyState) (c : Nat) : ProxyState :=
  { s with
    rootContainer := s.rootContainer.map (fun rc =>
      { rc with children := rc.children.filter (fun x => x ≠ c) }),
    layers := s.layers.map (fun p =>
      (p.1, { p.2 with children := p.2.children.filter (fun x => x ≠ c) })) }

/-- `GraphicsLayer::setChildren` on layer `l`: drop the current child list,
then add each new child in order, `addChild` first detaching it from its
previous parent. -/
def setChildrenOf (s : ProxyState) (l : Nat) (ids : List Nat) : ProxyState :=
  ids.foldl (fun st c =>
      updateNode (detachAll st c) l (fun n => { n with children := n.children ++ [c] }))
    (updateNode s l (fun n => { n with children := [] }))

/-- `LayerTreeHostProxy::ensureLayer`: create and register a fresh layer for
an id not present in `m_layers`. -/
def ensureLayer (s : ProxyState) (id : Nat) : ProxyState :=
  layersAdd s id defaultLayerNode

/-- `LayerTreeHostProxy::setRootLayerID`: no-op when the id is unchanged;
otherwise record the new id, detach all children from the synthetic root
container, and (for a valid id that resolves to a node) attach that node as
the container's sole child. -/
def setRootLayerID (s : ProxyState) (layerID : Nat) : ProxyState :=
  if layerID = s.rootLayerID then s
  else
    match s.rootContainer with
    | none => markCrashed { s with rootLayerID := layerID }
    | some rc =>
      let s1 : ProxyState :=
        { s with rootLayerID := layerID, rootContainer := some { rc with children := [] } }
      if layerID = 0 then s1
      else
        match layerByID s1 layerID with
        | none => s1
        | some _ =>
          let s2 := detachAll s1 layerID
          { s2 with rootContainer := s2.rootContainer.map (fun c =>
              { c with children := c.children ++ [layerID] }) }

/-- `LayerTreeHostProxy::deleteLayer`: a no-op for an unknown id; otherwise
detach the node from its parent and remove it from `m_layers`. -/
def deleteLayer (s : ProxyState) (layerID : Nat) : ProxyState :=
  match layerByID s layerID with
  | none => s
  | some _ =>
    let s1 := detachAll s layerID
    { s1 with layers := s1.layers.filter (fun p => p.1 ≠ layerID) }

/-- `LayerTreeHostProxy::getBackingStore` followed by an operation `f` on the
store: ensure the layer exists, lazily create its backing store, and apply
`f`.  For the reserved id 0 the layer lookup yields null and the code would
dereference it. -/
def withBackingStore (s : ProxyState) (layerID : Nat)
    (f : LayerBackingStore → LayerBackingStore) : ProxyState :=
  let s1 := ensureLayer s layerID
  match layerByID s1 layerID with
  | none => markCrashed s1
  | some n =>
    updateNode s1 layerID (fun m =>
      { m with backingStore := some (f (n.backingStore.getD { tiles := [] })) })

/-- `LayerTreeHostProxy::createTile`. -/
def createTile (s : ProxyState) (layerID : Nat) (tileID scale : Int) : ProxyState :=
  withBackingStore s layerID (storeCreateTile tileID scale)

/-- `LayerTreeHostProxy::removeTile`. -/
def removeTile (s : ProxyState) (layerID : Nat) (tileID : Int) : ProxyState :=
  withBackingStore s layerID (storeRemoveTile tileID)

/-- `m_backingStoresWithPendingBuffers.add`: hash-set insertion. -/
def pendingAdd (l : List Nat) (id : Nat) : List Nat :=
  if id ∈ l then l else l ++ [id]

/-- `LayerTreeHostProxy::updateTile`: record the pending buffer on the
layer's backing store and mark that store as having pending buffers. -/
def updateTile (s : ProxyState) (layerID : Nat) (tileID sourceRect targetRect bitmap : Int) :
    ProxyState :=
  let s1 := ensureLayer s layerID
  match layerByID s1 layerID with
  | none => markCrashed s1
  | some n =>
    let s2 := updateNode s1 layerID (fun m =>
      { m with backingStore := some (storeUpdateTile tileID sourceRect targetRect bitmap
          (n.backingStore.getD { tiles := [] })) })
    { s2 with pendingBuffers := pendingAdd s2.pendingBuffers layerID }

/-- `LayerTreeHostProxy::createImage`: build a texture backing from the
bitmap and register it (`HashMap::set` overwrites an existing entry). -/
def createImage (s : ProxyState) (imageID bitmap : Int) : ProxyState :=
  if (s.images.find? (fun p => p.1 = imageID)).isSome then
    { s with images := s.images.map (fun p => if p.1 = imageID then (p.1, bitmap) else p) }
  else
    { s with images := s.images ++ [(imageID, bitmap)] }

/-- `LayerTreeHostProxy::destroyImage`. -/
def destroyImage (s : ProxyState) (imageID : Int) : ProxyState :=
  { s with images := s.images.filter (fun p => p.1 ≠ imageID) }

/-- `LayerTreeHostProxy::assignImageToLayer`: looks the image up in
`m_directlyCompositedImages` and `ASSERT`s that it is present; an unknown
image id fails the assertion (and dereferences an end iterator). -/
def assignImageToLayer (s : ProxyState) (layerID : Nat) (imageID : Int) : ProxyState :=
  match (s.images.find? (fun p => p.1 = imageID)).map (fun p => p.2) with
  | none => markCrashed s
  | some b => updateNode s layerID (fun n => { n with contentsMedia := some b })

/-- Apply one `WebLayerAnimation` to a node's animation set.  Modelled from
the spec: Add inserts (or replaces) the named entry, Remove erases it, and
Pause stores the offset "current time minus animation start time". -/
def applyAnimation (now : Int) (anims : List (Nat × AnimationEntry))
    (a : WebLayerAnimation) : List (Nat × AnimationEntry) :=
  match a.operation with
  | AnimOperation.AddAnimation =>
    let entry : AnimationEntry :=
      { keyframeList := a.keyframeList, boxSize := a.boxSize,
        animationBody := a.animationBody, startTime := a.startTime, pauseOffset := none }
    if (anims.find? (fun p => p.1 = a.name)).isSome then
      anims.map (fun p => if p.1 = a.name then (p.1, entry) else p)
    else anims ++ [(a.name, entry)]
  | AnimOperation.RemoveAnimation => anims.filter (fun p => p.1 ≠ a.name)
  | AnimOperation.PauseAnimation =>
    anims.map (fun p =>
      if p.1 = a.name then (p.1, { p.2 with pauseOffset := some (now - a.startTime) }) else p)

/-- Copy the descriptor's scalar attributes onto the layer
(`syncLayerParameters`, the `setName` … `setDrawsContent` block; the replica
and mask ids are resolved against the current layer map, an unknown id
yielding a null pointer). -/
def syncFieldsUpdate (s1 : ProxyState) (info : WebLayerInfo) : ProxyState :=
  updateNode s1 info.id (fun n =>
    { n with
      name := info.name,
      replica := if (layersFind s1.layers info.replica).isSome then some info.replica else none,
      mask := if (layersFind s1.layers info.mask).isSome then some info.mask else none,
      pos := info.pos,
      size := info.size,
      transform := info.transform,
      anchorPoint := info.anchorPoint,
      childrenTransform := info.childrenTransform,
      backfaceVisible := info.backfaceVisible,
      contentsOpaque := info.contentsOpaque,
      contentsRect := info.contentsRect,
      drawsContent := info.drawsContent })

/-- Force masks-to-bounds to false for a descriptor flagged as root
("Never make the root layer clip"), and copy opacity and preserves-3D
(`syncLayerParameters`, the `setMasksToBounds` … `setPreserves3D` block). -/
def syncFlagsUpdate (s3 : ProxyState) (info : WebLayerInfo) : ProxyState :=
  updateNode s3 info.id (fun n =>
    { n with
      masksToBounds := if info.isRootLayer then false else info.masksToBounds,
      opacity := info.opacity,
      preserves3D := info.preserves3D })

/-- Resolve each child id, materializing a fresh layer for ids with no node
(`syncLayerParameters`, the children loop). -/
def materializeChildren (st : ProxyState) (ids : List Nat) : ProxyState :=
  ids.foldl (fun st c =>
    if (layerByID st c).isSome then st else layersAdd st c defaultLayerNode) st

/-- Apply the descriptor's animation operations in list order
(`syncLayerParameters`, the animations loop). -/
def applyAnimationsTo (st : ProxyState) (id : Nat) (anims : List WebLayerAnimation) : ProxyState :=
  updateNode st id (fun n =>
    { n with animations := anims.foldl (applyAnimation st.now) n.animations })

/-- Reassign the root when the descriptor is flagged root and names an id
different from the current root (`syncLayerParameters`, last two lines). -/
def rootReassign (st : ProxyState) (info : WebLayerInfo) : ProxyState :=
  if info.isRootLayer && decide (st.rootLayerID ≠ info.id) then setRootLayerID st info.id
  else st

/-- The body of `syncLayerParameters` once the layer exists, in source
order: copy the scalar attributes, re-run the image assignment if needed,
set the flags (masks-to-bounds forced false for a root-flagged descriptor),
materialize and install the child list, apply the animation operations, and
finally reassign the root if required. -/
def syncStages (s1 : ProxyState) (info : WebLayerInfo) (needsToUpdateImageTiles : Bool) :
    ProxyState :=
  rootReassign
    (applyAnimationsTo
      (setChildrenOf
        (materializeChildren
          (syncFlagsUpdate
            (if needsToUpdateImageTiles then
              assignImageToLayer (syncFieldsUpdate s1 info) info.id info.imageBackingStoreID
             else syncFieldsUpdate s1 info)
            info)
          info.children)
        info.id info.children)
      info.id info.animations)
    info

/-- `LayerTreeHostProxy::syncLayerParameters`: ensure the layer exists,
decide whether the image assignment must re-run (the incoming image-updated
flag, or a changed contents rect while an image id is assigned — computed
against the layer's previous contents rect), then apply the stages of
`syncStages`. -/
def syncLayerParameters (s : ProxyState) (info : WebLayerInfo) : ProxyState :=
  let s1 := ensureLayer s info.id
  match layersFind s1.layers info.id with
  | none => markCrashed s1
  | some layer0 =>
    syncStages s1 info
      (info.imageIsUpdated ||
        (decide (info.contentsRect ≠ layer0.contentsRect) && decide (info.imageBackingStoreID ≠ 0)))

/-- `LayerTreeHostProxy::swapBuffers`: swap every backing store registered in
`m_backingStoresWithPendingBuffers`, then clear the set. -/
def swapBuffers (s : ProxyState) : ProxyState :=
  { s with
    layers := s.layers.map (fun p =>
      if p.1 ∈ s.pendingBuffers then (p.1, { p.2 with backingStore := p.2.backingStore.map swapStore })
      else p),
    pendingBuffers := [] }

/-- `LayerTreeHostProxy::flushLayerChanges`: re-sync the scene graph
(`syncCompositingState`, GPU-side only — no model-visible state), swap the
pending buffers, and tell the web process to render the next frame. -/
def flushLayerChanges (s : ProxyState) : ProxyState :=
  let s1 := swapBuffers s
  { s1 with sent := s1.sent ++ [OutMessage.RenderNextFrame] }

/-- `LayerTreeHostProxy::ensureRootLayer`: lazily create the synthetic root
container (non-clipping, non-drawing, unit size) and the texture mapper. -/
def ensureRootLayer (s : ProxyState) : ProxyState :=
  match s.rootContainer with
  | some _ => s
  | none =>
    { s with
      rootContainer := some { defaultLayerNode with
        masksToBounds := false, drawsContent := false, anchorPoint := 0, size := 1 },
      textureMapperAlive := true }

/-- Dispatch of one drained message
(the `switch` of `LayerTreeHostProxy::syncRemoteContent`). -/
def applyMessage (s : ProxyState) : Msg → ProxyState
  | Msg.SetRootLayer layerID => setRootLayerID s layerID
  | Msg.DeleteLayer layerID => deleteLayer s layerID
  | Msg.SyncLayerParameters info => syncLayerParameters s info
  | Msg.CreateTile layerID tileID scale => createTile s layerID tileID scale
  | Msg.RemoveTile layerID tileID => removeTile s layerID tileID
  | Msg.UpdateTile layerID tileID src tgt bmp => updateTile s layerID tileID src tgt bmp
  | Msg.CreateImage imageID bitmap => createImage s imageID bitmap
  | Msg.DestroyImage imageID => destroyImage s imageID
  | Msg.FlushLayerChanges => flushLayerChanges s

/-- The drain loop of `LayerTreeHostProxy::syncRemoteContent`: repeatedly pop
the oldest queued message and apply it, until `tryGetMessage` yields
nothing; returns the final state and the (empty) remaining queue. -/
def syncRemoteContentLoop (s : ProxyState) : List Msg → ProxyState × List Msg
  | [] => (s, [])
  | m :: rest => syncRemoteContentLoop (applyMessage s m) rest

/-- `LayerTreeHostProxy::syncRemoteContent`: ensure the root container, then
drain the queue. -/
def syncRemoteContent (s : ProxyState) (queue : List Msg) : ProxyState × List Msg :=
  syncRemoteContentLoop (ensureRootLayer s) queue

/-- `LayerTreeHostProxy::pushUpdateToQueue`: the producer appends one message
to the strictly ordered queue. -/
def pushUpdateToQueue (queue : List Msg) (m : Msg) : List Msg :=
  queue ++ [m]

/-- `LayerTreeHostProxy::purgeGLResources`: release every mirrored layer's
backing store, clear the directly-composited image registry, release the
texture mapper, clear the pending-buffer set, and tell the web process its
backing stores were purged.  Modelled from the spec in part:
`TextureMapperLayer::clearBackingStoresRecursive` is not part of the sample,
and the spec describes this entry point as releasing all GPU resources (a
full resource purge), so the backing store of every layer — the synthetic
root container's included — is cleared. -/
def purgeGLResources (s : ProxyState) : ProxyState :=
  { s with
    rootContainer := s.rootContainer.map (fun c => { c with backingStore := none }),
    layers := s.layers.map (fun p => (p.1, { p.2 with backingStore := none })),
    images := [],
    textureMapperAlive := false,
    pendingBuffers := [],
    sent := s.sent ++ [OutMessage.PurgeBackingStores] }

/-- The observable scene graph replicated from the web process: the layer
map, the current root layer id, and the synthetic root container. -/
def sceneGraphOf (s : ProxyState) :
    List (Nat × GraphicsLayerNode) × Nat × Option GraphicsLayerNode :=
  (s.layers, s.rootLayerID, s.rootContainer)

/-!  The scrolling tree (`ScrollingTree.h`).  Only the class interface is part
of the sample; the behaviour below is modelled from the spec's wheel-event
state machine (§4.4). -/

/-- An axis-aligned rectangle (x, y, width, height). -/
structure ScrollRect where
  x : Int
  y : Int
  w : Int
  h : Int
deriving DecidableEq, Repr

/-- Point-in-rectangle test. -/
def rectContains (r : ScrollRect) (p : Int × Int) : Bool :=
  decide (r.x ≤ p.1) && decide (p.1 < r.x + r.w) && decide (r.y ≤ p.2) && decide (p.2 < r.y + r.h)

/-- Membership of a point in `m_nonFastScrollableRegion` (a set of
rectangles). -/
def regionContains (region : List ScrollRect) (p : Int × Int) : Bool :=
  region.any (fun r => rectContains r p)

/-- One scrollable node of the scrolling tree.  Modelled from the spec:
a scrollable region with a scroll position and left/right pin state. -/
structure ScrollNode where
  rect : ScrollRect
  scrollPosition : Int
  pinnedToTheLeft : Bool
  pinnedToTheRight : Bool
deriving DecidableEq, Repr

/-- The scrolling-thread view of the scrolling tree: the non-fast-scrollable
region and the scrollable nodes. -/
structure ScrollTreeModel where
  nonFastScrollableRegion : List ScrollRect
  nodes : List ScrollNode
deriving DecidableEq, Repr

/-- A wheel event: origin point and horizontal delta. -/
structure WheelEvent where
  position : Int × Int
  deltaX : Int
deriving DecidableEq, Repr

/-- Scroll a node by the event delta, refusing to scroll past a pinned edge.
Modelled from the spec: "apply the scroll delta directly to its position,
respecting pin state". -/
def applyScrollDelta (n : ScrollNode) (delta : Int) : ScrollNode :=
  if delta < 0 && n.pinnedToTheLeft then n
  else if delta > 0 && n.pinnedToTheRight then n
  else { n with scrollPosition := n.scrollPosition + delta }

/-- `ScrollingTree::tryToHandleWheelEvent`.  Modelled from the spec (§4.4):
1. an event whose origin lies in the non-fast-scrollable region is sent to
the main thread; 2. otherwise a scrollable node at that point handles it;
3. otherwise the event is not handled here. -/
def tryToHandleWheelEvent (tree : ScrollTreeModel) (ev : WheelEvent) :
    EventResult × ScrollTreeModel :=
  if regionContains tree.nonFastScrollableRegion ev.position then
    (EventResult.SendToMainThread, tree)
  else
    match tree.nodes.find? (fun n => rectContains n.rect ev.position) with
    | some _ =>
      (EventResult.DidHandleEvent,
        { tree with nodes := tree.nodes.map (fun n =>
            if rectContains n.rect ev.position then applyScrollDelta n ev.deltaX else n) })
    | none => (EventResult.DidNotHandleEvent, tree)

/-!  Concrete states used to instantiate the theorems below. -/

/-- A small concrete scene: root layer 1 with children 3 and 4 attached under
the synthetic container, plus a detached layer 2. -/
def sampleRootScene : ProxyState :=
  { layers := [(1, { children := [3, 4] }), (2, {}), (3, {}), (4, {})],
    rootLayerID := 1,
    rootContainer := some { children := [1] } }

/-- The backing store of the sample pending scene. -/
def samplePendingStore : LayerBackingStore :=
  { tiles := [(1, { scale := 1, visible := none, pending := some (0, 0, 5) })] }

/-- A concrete state with one backing store holding a pending buffer. -/
def samplePendingScene : ProxyState :=
  { layers := [(3, { backingStore := some samplePendingStore })],
    pendingBuffers := [3] }

/-- A scene with a tile created on layer 5 and layer 5 attached as the root. -/
def attachedTileScene : ProxyState :=
  (syncRemoteContent initialProxyState
    [Msg.CreateTile 5 1 1, Msg.SyncLayerParameters { id := 5, isRootLayer := true }]).1

/-- A scene in which layer 5 is the current root (recorded by a
`SetRootLayer 5` command) and then receives a `SyncLayerParameters` whose
descriptor is not flagged root and asks for masks-to-bounds. -/
def rootNotFlaggedScene : ProxyState :=
  applyMessage (applyMessage (ensureRootLayer initialProxyState) (Msg.SetRootLayer 5))
    (Msg.SyncLayerParameters { id := 5, isRootLayer := false, masksToBounds := true })

/-- The net effect of `GraphicsLayer::setChildren` on the target layer's
child list: each child is first detached (removing an earlier duplicate)
and then appended. -/
def childrenResult (ids : List Nat) : List Nat :=
  ids.foldl (fun acc c => acc.filter (fun x => x ≠ c) ++ [c]) []

/-- A command whose replay the amended idempotence claim covers: any command,
except that a `SyncLayerParameters` descriptor must carry no mask, replica,
image or animation payload and must not list its own id among its children. -/
def plainMsg : Msg → Bool
  | Msg.SyncLayerParameters info =>
    decide (info.mask = 0) && decide (info.replica = 0) &&
    decide (info.imageIsUpdated = false) && decide (info.imageBackingStoreID = 0) &&
    decide (info.animations = []) && decide (info.id ∉ info.children)
  | _ => true

/-- One command followed by the end-of-frame barrier, processed by the drain
loop: the smallest complete frame batch. -/
def applyBatch (s : ProxyState) (m : Msg) : ProxyState :=
  (syncRemoteContent s [m, Msg.FlushLayerChanges]).1

/-- A committed batch whose replay is not idempotent: layer 1 references
layer 2 as its mask before 2 exists. -/
def maskBatch : List Msg :=
  [Msg.SyncLayerParameters { id := 1, mask := 2 },
   Msg.SyncLayerParameters { id := 2 },
   Msg.FlushLayerChanges]

/-- The scalar attributes a restricted `SyncLayerParameters` descriptor
(no mask, replica, image or animation payload) leaves on its target node. -/
structure SyncScalarFields (info : WebLayerInfo) (n : GraphicsLayerNode) : Prop where
  hname : n.name = info.name
  hreplica : n.replica = none
  hmask : n.mask = none
  hpos : n.pos = info.pos
  hsize : n.size = info.size
  htransform : n.transform = info.transform
  hanchor : n.anchorPoint = info.anchorPoint
  hct : n.childrenTransform = info.childrenTransform
  hbv : n.backfaceVisible = info.backfaceVisible
  hco : n.contentsOpaque = info.contentsOpaque
  hcr : n.contentsRect = info.contentsRect
  hdc : n.drawsContent = info.drawsContent
  hmtb : n.masksToBounds = (if info.isRootLayer then false else info.masksToBounds)
  hop : n.opacity = info.opacity
  hp3 : n.preserves3D = info.preserves3D

/-- The attributes written by the `setName` … `setDrawsContent` block of
`syncLayerParameters` for a descriptor with null replica, mask and image. -/
def SyncFieldProps (info : WebLayerInfo) (n : GraphicsLayerNode) : Prop :=
  n.name = info.name ∧ n.replica = none ∧ n.mask = none ∧ n.pos = info.pos ∧
  n.size = info.size ∧ n.transform = info.transform ∧ n.anchorPoint = info.anchorPoint ∧
  n.childrenTransform = info.childrenTransform ∧ n.backfaceVisible = info.backfaceVisible ∧
  n.contentsOpaque = info.contentsOpaque ∧ n.contentsRect = info.contentsRect ∧
  n.drawsContent = info.drawsContent

/-- The attributes written by the `setMasksToBounds` … `setPreserves3D` block
of `syncLayerParameters`. -/
def SyncFlagProps (info : WebLayerInfo) (n : GraphicsLayerNode) : Prop :=
  n.masksToBounds = (if info.isRootLayer then false else info.masksToBounds) ∧
  n.opacity = info.opacity ∧ n.preserves3D = info.preserves3D

/-- The state invariant a committed restricted `SyncLayerParameters` batch
leaves behind, sufficient for the replay to be a no-op: the target's scalar
attributes and child list match the descriptor, no other node (nor the
synthetic container) holds one of the descriptor's children, a root-flagged
descriptor's id is the current root id, and the target and its children are
present in the map. -/
def syncInv (info : WebLayerInfo) (x : ProxyState) : Prop :=
  (∀ p ∈ x.layers, p.1 = info.id → SyncScalarFields info p.2) ∧
  (∀ p ∈ x.layers, p.1 = info.id → p.2.children = childrenResult info.children) ∧
  (∀ p ∈ x.layers, p.1 ≠ info.id → ∀ c ∈ info.children, c ∉ p.2.children) ∧
  (∀ rc, x.rootContainer = some rc → ∀ c ∈ info.children, c ∉ rc.children) ∧
  (info.isRootLayer = true → x.rootLayerID = info.id) ∧
  (layerByID x info.id).isSome = true ∧
  (∀ c ∈ info.children, c ≠ 0 → (layerByID x c).isSome = true)

/-!  Association-list toolkit. -/

/-- The entry stored under key `k`. -/
def entryFor {α : Type} (l : List (Nat × α)) (k : Nat) : Option (Nat × α) :=
  l.find? (fun p => p.1 = k)

theorem layersFind_eq_entryFor (l : List (Nat × GraphicsLayerNode)) (k : Nat) :
    layersFind l k = if k = 0 then none else (entryFor l k).map (fun p => p.2) := rfl

theorem entryFor_map {α : Type} (g : Nat × α → Nat × α) (hg : ∀ p, (g p).1 = p.1)
    (l : List (Nat × α)) (k : Nat) :
    entryFor (l.map g) k = (entryFor l k).map g := by
  induction l with
  | nil => rfl
  | cons p t ih =>
    by_cases h : p.1 = k
    · simp only [entryFor, List.map_cons]
      rw [List.find?_cons_of_pos, List.find?_cons_of_pos] <;> simp [hg, h]
    · simp only [entryFor, List.map_cons] at ih ⊢
      rw [List.find?_cons_of_neg, List.find?_cons_of_neg] <;> simp [hg, h, ih]

theorem entryFor_key {α : Type} {l : List (Nat × α)} {k : Nat} {p : Nat × α}
    (h : entryFor l k = some p) : p.1 = k := by
  have := List.find?_some h
  simpa using this

theorem entryFor_append_right {α : Type} {l : List (Nat × α)} {k : Nat}
    (h : entryFor l k = none) (e : Nat × α) :
    entryFor (l ++ [e]) k = if e.1 = k then some e else none := by
  induction l with
  | nil =>
    by_cases he : e.1 = k
    · simp [entryFor, List.find?, he]
    · simp [entryFor, List.find?, he]
  | cons p t ih =>
    have hp : ¬ (p.1 = k) := by
      intro hk
      simp [entryFor, List.find?_cons_of_pos, hk] at h
    simp only [entryFor, List.cons_append] at h ⊢
    rw [List.find?_cons_of_neg _ (by simp [hp])] at h
    rw [List.find?_cons_of_neg _ (by simp [hp])]
    exact ih h

theorem entryFor_append_left {α : Type} {l : List (Nat × α)} {k : Nat} {p : Nat × α}
    (h : entryFor l k = some p) (l2 : List (Nat × α)) :
    entryFor (l ++ l2) k = some p := by
  simp only [entryFor] at h ⊢
  rw [List.find?_append, h]
  rfl

theorem entryFor_filter_ne {α : Type} (l : List (Nat × α)) (k j : Nat) (hjk : j ≠ k) :
    entryFor (l.filter (fun p => p.1 ≠ k)) j = entryFor l j := by
  induction l with
  | nil => rfl
  | cons p t ih =>
    by_cases hpk : p.1 = k
    · have hpj : ¬ (p.1 = j) := by simp [hpk]; exact fun h => (hjk h.symm).elim
      simp only [entryFor] at ih ⊢
      rw [List.find?_cons_of_neg _ (by simp [hpj])]
      have : (p :: t).filter (fun p => p.1 ≠ k) = t.filter (fun p => p.1 ≠ k) := by
        simp [List.filter_cons, hpk]
      rw [this]
      exact ih
    · by_cases hpj : p.1 = j
      · simp only [entryFor] at ih ⊢
        have : (p :: t).filter (fun p => p.1 ≠ k) = p :: t.filter (fun p => p.1 ≠ k) := by
          simp [List.filter_cons, hpk]
        rw [this, List.find?_cons_of_pos _ (by simp [hpj]), List.find?_cons_of_pos _ (by simp [hpj])]
      · simp only [entryFor] at ih ⊢
        have : (p :: t).filter (fun p => p.1 ≠ k) = p :: t.filter (fun p => p.1 ≠ k) := by
          simp [List.filter_cons, hpk]
        rw [this, List.find?_cons_of_neg _ (by simp [hpj]), List.find?_cons_of_neg _ (by simp [hpj])]
        exact ih

/-!  The drain loop applies the queue in FIFO order. -/

theorem syncRemoteContentLoop_eq (q : List Msg) :
    ∀ s : ProxyState, syncRemoteContentLoop s q = (q.foldl applyMessage s, []) := by
  induction q with
  | nil => intro s; rfl
  | cons m rest ih => intro s; simp [syncRemoteContentLoop, List.foldl_cons, ih]

theorem foldl_pushUpdateToQueue (cmds : List Msg) :
    ∀ q0 : List Msg, cmds.foldl pushUpdateToQueue q0 = q0 ++ cmds := by
  induction cmds with
  | nil => intro q0; simp
  | cons m rest ih => intro q0; simp [List.foldl_cons, pushUpdateToQueue, ih]

/-- Claim C1: every sequence of commands enqueued by the producer through
`pushUpdateToQueue` is applied by the drain loop of `syncRemoteContent` one
at a time in exactly the enqueue (FIFO) order — the resulting state is the
left fold of `applyMessage` over the commands in order, so nothing is
reordered, coalesced or dropped — and the loop returns exactly when the
remaining queue is empty. -/
theorem syncRemoteContent_fifo (s : ProxyState) (cmds : List Msg) :
    syncRemoteContent s (cmds.foldl pushUpdateToQueue []) =
      (cmds.foldl applyMessage (ensureRootLayer s), []) := by
  rw [syncRemoteContent, foldl_pushUpdateToQueue, List.nil_append, syncRemoteContentLoop_eq]

/-- Claim C9: a wheel event whose origin lies inside the registered
non-fast-scrollable region is answered with `SendToMainThread`, regardless
of the scrollable nodes of the tree. -/
theorem wheelEvent_in_nonFastRegion_sendToMainThread (tree : ScrollTreeModel) (ev : WheelEvent)
    (h : regionContains tree.nonFastScrollableRegion ev.position = true) :
    (tryToHandleWheelEvent tree ev).1 = EventResult.SendToMainThread := by
  simp [tryToHandleWheelEvent, h]

/-- Witness for C9: a point inside a registered non-fast-scrollable
rectangle with a scrollable node directly underneath it is still sent to the
main thread. -/
theorem wheelEvent_in_nonFastRegion_sendToMainThread_witness :
    regionContains [ScrollRect.mk 0 0 10 10] (5, 5) = true ∧
      (tryToHandleWheelEvent
        { nonFastScrollableRegion := [ScrollRect.mk 0 0 10 10],
          nodes := [{ rect := ScrollRect.mk 0 0 20 20, scrollPosition := 0,
                      pinnedToTheLeft := false, pinnedToTheRight := false }] }
        { position := (5, 5), deltaX := 3 }).1 = EventResult.SendToMainThread :=
  ⟨by decide, wheelEvent_in_nonFastRegion_sendToMainThread _ _ (by decide)⟩

/-!  Lookup equations for the state operations. -/

theorem layersFind_map_keyfix (l : List (Nat × GraphicsLayerNode))
    (g : Nat × GraphicsLayerNode → Nat × GraphicsLayerNode)
    (v : Nat → GraphicsLayerNode → GraphicsLayerNode)
    (hg : ∀ p, g p = (p.1, v p.1 p.2)) (k : Nat) :
    layersFind (l.map g) k = (layersFind l k).map (v k) := by
  unfold layersFind
  by_cases h0 : k = 0
  · simp [h0]
  · have hg1 : ∀ p : Nat × GraphicsLayerNode, (g p).1 = p.1 := fun p => by rw [hg]
    have hmap := entryFor_map g hg1 l k
    unfold entryFor at hmap
    simp only [h0, if_neg, ite_false]
    rw [hmap]
    cases hfind : l.find? (fun p => p.1 = k) with
    | none => rfl
    | some p =>
      have hk : p.1 = k := by
        have := List.find?_some hfind
        simpa using this
      simp [hg, hk]

theorem layerByID_zero (s : ProxyState) : layerByID s 0 = none := by
  simp [layerByID, layersFind]

theorem layerByID_updateNode (s : ProxyState) (id : Nat) (f : GraphicsLayerNode → GraphicsLayerNode)
    (k : Nat) :
    layerByID (updateNode s id f) k =
      if k = id then (layerByID s k).map f else layerByID s k := by
  unfold updateNode layerByID
  rw [layersFind_map_keyfix _ _ (fun j n => if j = id then f n else n)
    (fun p => by by_cases h : p.1 = id <;> simp [h])]
  by_cases h : k = id
  · simp [h]
  · simp only [h, if_neg, ite_false]
    cases layersFind s.layers k <;> simp [h]

theorem layerByID_detachAll (s : ProxyState) (c k : Nat) :
    layerByID (detachAll s c) k =
      (layerByID s k).map (fun n => { n with children := n.children.filter (fun x => x ≠ c) }) := by
  unfold detachAll layerByID
  exact layersFind_map_keyfix s.layers
    (fun p => (p.1, { p.2 with children := p.2.children.filter (fun x => x ≠ c) }))
    (fun j n => { n with children := n.children.filter (fun x => x ≠ c) })
    (fun p => rfl) k

theorem layersAdd_present (s : ProxyState) (id : Nat) (n : GraphicsLayerNode)
    (h : (layersFind s.layers id).isSome) : layersAdd s id n = s := by
  simp [layersAdd, h]

theorem layersAdd_zero (s : ProxyState) (n : GraphicsLayerNode) : layersAdd s 0 n = s := by
  simp [layersAdd]

theorem layerByID_layersAdd_self (s : ProxyState) (id : Nat) (n : GraphicsLayerNode)
    (h0 : id ≠ 0) (h : layerByID s id = none) :
    layerByID (layersAdd s id n) id = some n := by
  have hent : entryFor s.layers id = none := by
    unfold layerByID layersFind at h
    simp only [h0, if_neg, ite_false] at h
    cases hc : entryFor s.layers id with
    | none => rfl
    | some p => unfold entryFor at hc; rw [hc] at h; simp at h
  unfold layersAdd
  have hiss : (layersFind s.layers id).isSome = false := by
    unfold layerByID at h; rw [h]; rfl
  simp only [hiss, h0, false_or, Bool.false_eq_true, if_neg, ite_false]
  unfold layerByID layersFind
  rw [show ((s.layers ++ [(id, n)]).find? (fun p => p.1 = id)) =
      entryFor (s.layers ++ [(id, n)]) id from rfl]
  rw [entryFor_append_right hent]
  simp [h0]

theorem layerByID_layersAdd_other (s : ProxyState) (id : Nat) (n : GraphicsLayerNode)
    (k : Nat) (hk : k ≠ id) :
    layerByID (layersAdd s id n) k = layerByID s k := by
  unfold layersAdd
  by_cases hc : id = 0 ∨ (layersFind s.layers id).isSome
  · simp [hc]
  · simp only [hc, if_neg, ite_false]
    unfold layerByID layersFind
    by_cases h0 : k = 0
    · simp [h0]
    · simp only [h0, if_neg, ite_false]
      cases hf : entryFor s.layers k with
      | some p =>
        rw [show ((s.layers ++ [(id, n)]).find? (fun p => p.1 = k)) =
            entryFor (s.layers ++ [(id, n)]) k from rfl]
        rw [entryFor_append_left hf]
        unfold entryFor at hf
        rw [hf]
      | none =>
        rw [show ((s.layers ++ [(id, n)]).find? (fun p => p.1 = k)) =
            entryFor (s.layers ++ [(id, n)]) k from rfl]
        rw [entryFor_append_right hf]
        unfold entryFor at hf
        rw [hf]
        simp [Ne.symm hk]

theorem ensureLayer_of_present {s : ProxyState} {id : Nat}
    (h : (layerByID s id).isSome) : ensureLayer s id = s :=
  layersAdd_present s id defaultLayerNode h

theorem layerByID_ensureLayer_self (s : ProxyState) (id : Nat) (h0 : id ≠ 0) :
    (layerByID (ensureLayer s id) id).isSome := by
  cases h : layerByID s id with
  | some n => rw [ensureLayer_of_present (by rw [h]; rfl), h]; rfl
  | none =>
    unfold ensureLayer
    rw [layerByID_layersAdd_self s id defaultLayerNode h0 h]
    rfl

theorem layerByID_ensureLayer_other (s : ProxyState) (id k : Nat) (hk : k ≠ id) :
    layerByID (ensureLayer s id) k = layerByID s k :=
  layerByID_layersAdd_other s id defaultLayerNode k hk

theorem ensureLayer_scalars (s : ProxyState) (id : Nat) :
    (ensureLayer s id).rootLayerID = s.rootLayerID ∧
    (ensureLayer s id).rootContainer = s.rootContainer ∧
    (ensureLayer s id).images = s.images ∧
    (ensureLayer s id).pendingBuffers = s.pendingBuffers ∧
    (ensureLayer s id).sent = s.sent ∧
    (ensureLayer s id).crashed = s.crashed ∧
    (ensureLayer s id).now = s.now := by
  unfold ensureLayer layersAdd
  split <;> simp

theorem layersFind_filter_ne (l : List (Nat × GraphicsLayerNode)) (id k : Nat) (hk : k ≠ id) :
    layersFind (l.filter (fun p => p.1 ≠ id)) k = layersFind l k := by
  by_cases hk0 : k = 0
  · simp [layersFind, hk0]
  · unfold layersFind
    simp only [hk0, if_neg, ite_false]
    rw [show ((l.filter (fun p => p.1 ≠ id)).find? (fun p => p.1 = k)) =
        entryFor (l.filter (fun p => p.1 ≠ id)) k from rfl]
    rw [entryFor_filter_ne _ _ _ hk]
    rfl

theorem entryFor_filter_self {α : Type} (l : List (Nat × α)) (k : Nat) :
    entryFor (l.filter (fun p => p.1 ≠ k)) k = none := by
  unfold entryFor
  rw [List.find?_eq_none]
  intro p hp
  have := (List.mem_filter.mp hp).2
  simpa using this

/-- Claim C8: `DeleteLayer` for an id with no node leaves the state entirely
unchanged; for an existing node it first detaches the node from its parent
(the id disappears from the synthetic container's and every remaining
node's child list) and then removes it from the layer map (the id no longer
resolves), leaving every other component of the state untouched. -/
theorem deleteLayer_spec (s : ProxyState) (id : Nat) :
    (layerByID s id = none → applyMessage s (Msg.DeleteLayer id) = s) ∧
    (∀ n, layerByID s id = some n →
      layerByID (applyMessage s (Msg.DeleteLayer id)) id = none ∧
      (∀ k, k ≠ id → layerByID (applyMessage s (Msg.DeleteLayer id)) k =
        (layerByID s k).map (fun m => { m with children := m.children.filter (fun x => x ≠ id) })) ∧
      (applyMessage s (Msg.DeleteLayer id)).rootContainer =
        s.rootContainer.map (fun c => { c with children := c.children.filter (fun x => x ≠ id) }) ∧
      (applyMessage s (Msg.DeleteLayer id)).rootLayerID = s.rootLayerID ∧
      (applyMessage s (Msg.DeleteLayer id)).images = s.images ∧
      (applyMessage s (Msg.DeleteLayer id)).pendingBuffers = s.pendingBuffers ∧
      (applyMessage s (Msg.DeleteLayer id)).sent = s.sent ∧
      (applyMessage s (Msg.DeleteLayer id)).crashed = s.crashed) := by
  constructor
  · intro h
    simp only [applyMessage, deleteLayer, h]
  · intro n h
    have h0 : id ≠ 0 := by
      intro hz
      rw [hz, layerByID_zero] at h
      exact Option.noConfusion h
    have ht : applyMessage s (Msg.DeleteLayer id) =
        { detachAll s id with
          layers := (detachAll s id).layers.filter (fun p => p.1 ≠ id) } := by
      simp only [applyMessage, deleteLayer, h]
    rw [ht]
    refine ⟨?_, ?_, ?_, rfl, rfl, rfl, rfl, rfl⟩
    · show layersFind ((detachAll s id).layers.filter (fun p => p.1 ≠ id)) id = none
      unfold layersFind
      simp only [h0, if_neg, ite_false]
      rw [show (((detachAll s id).layers.filter (fun p => p.1 ≠ id)).find? (fun p => p.1 = id)) =
          entryFor ((detachAll s id).layers.filter (fun p => p.1 ≠ id)) id from rfl]
      rw [entryFor_filter_self]
      rfl
    · intro k hk
      show layersFind ((detachAll s id).layers.filter (fun p => p.1 ≠ id)) k = _
      rw [layersFind_filter_ne _ id k hk]
      exact layerByID_detachAll s id k
    · show ((detachAll s id).rootContainer) = _
      simp [detachAll]

/-- Witness for C8: deleting layer 3 of the sample scene detaches it from
layer 1 and removes it from the map; deleting the absent layer 9 changes
nothing. -/
theorem deleteLayer_spec_witness :
    layerByID sampleRootScene 3 = some {} ∧
    layerByID (applyMessage sampleRootScene (Msg.DeleteLayer 3)) 3 = none ∧
    layerByID (applyMessage sampleRootScene (Msg.DeleteLayer 3)) 1 =
      some { children := [4] } ∧
    applyMessage sampleRootScene (Msg.DeleteLayer 9) = sampleRootScene := by
  have h1 := (deleteLayer_spec sampleRootScene 3).2 {} (by decide)
  have h2 := (deleteLayer_spec sampleRootScene 9).1 (by decide)
  refine ⟨by decide, h1.1, ?_, h2⟩
  have h3 := h1.2.1 1 (by decide)
  rw [h3]
  decide

/-- Claim C6: with current root `A` and a live synthetic container, applying
`SetRootLayer B` (`B ≠ A`, `B` a valid id) records `B` as root and replaces
the container's children with `[B]` when a node for `B` exists and with the
empty list otherwise; node `A` stays in the layer map; and `SetRootLayer`
naming the current root id changes nothing at all.  (`B ≠ 0` because 0 is
`InvalidWebLayerID`: `setRootLayerID` returns after clearing the container,
before any lookup, for the null id.) -/
theorem setRootLayer_spec (s : ProxyState) (A B : Nat) (rc : GraphicsLayerNode)
    (hA : s.rootLayerID = A) (hBA : B ≠ A) (hB0 : B ≠ 0)
    (hrc : s.rootContainer = some rc) :
    (applyMessage s (Msg.SetRootLayer B)).rootLayerID = B ∧
    ((applyMessage s (Msg.SetRootLayer B)).rootContainer.map (fun c => c.children)) =
      some (if (layerByID s B).isSome then [B] else []) ∧
    ((layerByID (applyMessage s (Msg.SetRootLayer B)) A).isSome = (layerByID s A).isSome) ∧
    applyMessage s (Msg.SetRootLayer A) = s := by
  have hne : ¬ (B = s.rootLayerID) := by rw [hA]; exact hBA
  have hid : applyMessage s (Msg.SetRootLayer A) = s := by
    simp only [applyMessage, setRootLayerID, hA, if_pos]
  refine ⟨?_, ?_, ?_, hid⟩
  · simp only [applyMessage, setRootLayerID, hne, if_neg, ite_false, hrc, hB0]
    cases hB : layerByID s B with
    | none =>
      rw [show layerByID { s with rootLayerID := B, rootContainer := some { rc with children := [] } } B = (none : Option GraphicsLayerNode) from hB]
    | some nB =>
      rw [show layerByID { s with rootLayerID := B, rootContainer := some { rc with children := [] } } B = some nB from hB]
      simp [detachAll]
  · simp only [applyMessage, setRootLayerID, hne, if_neg, ite_false, hrc, hB0]
    cases hB : layerByID s B with
    | none =>
      rw [show layerByID { s with rootLayerID := B, rootContainer := some { rc with children := [] } } B = (none : Option GraphicsLayerNode) from hB]
      simp
    | some nB =>
      rw [show layerByID { s with rootLayerID := B, rootContainer := some { rc with children := [] } } B = some nB from hB]
      simp [detachAll]
  · simp only [applyMessage, setRootLayerID, hne, if_neg, ite_false, hrc, hB0]
    cases hB : layerByID s B with
    | none =>
      rw [show layerByID { s with rootLayerID := B, rootContainer := some { rc with children := [] } } B = (none : Option GraphicsLayerNode) from hB]
      rfl
    | some nB =>
      rw [show layerByID { s with rootLayerID := B, rootContainer := some { rc with children := [] } } B = some nB from hB]
      have h1 := layerByID_detachAll { s with rootLayerID := B, rootContainer := some { rc with children := [] } } B A
      have h2 : layerByID { s with rootLayerID := B, rootContainer := some { rc with children := [] } } A = layerByID s A := rfl
      rw [h2] at h1
      show (layerByID (detachAll { s with rootLayerID := B, rootContainer := some { rc with children := [] } } B) A).isSome = _
      rw [h1]
      cases layerByID s A <;> rfl

/-- Witness for C6: reassigning the root of the sample scene from 1 to 2
attaches only 2 under the container, keeps node 1 in the map, and naming
the current root is a no-op. -/
theorem setRootLayer_spec_witness :
    sampleRootScene.rootLayerID = 1 ∧
    (applyMessage sampleRootScene (Msg.SetRootLayer 2)).rootLayerID = 2 ∧
    ((applyMessage sampleRootScene (Msg.SetRootLayer 2)).rootContainer.map (fun c => c.children)) =
      some [2] ∧
    (layerByID (applyMessage sampleRootScene (Msg.SetRootLayer 2)) 1).isSome = true ∧
    applyMessage sampleRootScene (Msg.SetRootLayer 1) = sampleRootScene := by
  have h := setRootLayer_spec sampleRootScene 1 2 { children := [1] } rfl
    (by decide) (by decide) rfl
  refine ⟨rfl, h.1, ?_, ?_, h.2.2.2⟩
  · rw [h.2.1]; decide
  · rw [h.2.2.1]; decide

/-- Claim C2: after `FlushLayerChanges` the pending set is empty, exactly one
`RenderNextFrame` message has been appended to the outbound trace, every
backing store registered as having pending buffers has been swapped exactly
once (`swapStore`), all other layers are untouched, and swapping promotes
each pending buffer to visible and clears it. -/
theorem flushLayerChanges_spec (s : ProxyState) :
    (applyMessage s Msg.FlushLayerChanges).pendingBuffers = [] ∧
    (applyMessage s Msg.FlushLayerChanges).sent = s.sent ++ [OutMessage.RenderNextFrame] ∧
    (∀ id ∈ s.pendingBuffers,
      layerByID (applyMessage s Msg.FlushLayerChanges) id =
        (layerByID s id).map (fun n => { n with backingStore := n.backingStore.map swapStore })) ∧
    (∀ id, id ∉ s.pendingBuffers →
      layerByID (applyMessage s Msg.FlushLayerChanges) id = layerByID s id) ∧
    (∀ t : TileState, (swapTile t).pending = none) ∧
    (∀ (t : TileState) (v : Int × Int × Int), t.pending = some v → (swapTile t).visible = some v) := by
  have hlay : ∀ k, layerByID (applyMessage s Msg.FlushLayerChanges) k =
      (layerByID s k).map (fun n =>
        if k ∈ s.pendingBuffers then { n with backingStore := n.backingStore.map swapStore }
        else n) := by
    intro k
    show layersFind (swapBuffers s).layers k = _
    unfold swapBuffers
    exact layersFind_map_keyfix s.layers _
      (fun j n => if j ∈ s.pendingBuffers then { n with backingStore := n.backingStore.map swapStore }
        else n)
      (fun p => by by_cases h : p.1 ∈ s.pendingBuffers <;> simp [h]) k
  refine ⟨rfl, rfl, ?_, ?_, ?_, ?_⟩
  · intro id hid
    rw [hlay id]
    cases layerByID s id <;> simp [hid]
  · intro id hid
    rw [hlay id]
    cases layerByID s id <;> simp [hid]
  · intro t
    cases h : t.pending <;> simp [swapTile, h]
  · intro t v h
    simp [swapTile, h]

/-- Witness for C2: flushing the sample pending scene promotes the pending
buffer of layer 3 to visible, clears the pending set, and sends exactly one
`RenderNextFrame`. -/
theorem flushLayerChanges_spec_witness :
    (3 ∈ samplePendingScene.pendingBuffers) ∧
    layerByID (applyMessage samplePendingScene Msg.FlushLayerChanges) 3 =
      some { backingStore := some { tiles := [(1, { scale := 1, visible := some (0, 0, 5), pending := none })] } } ∧
    (applyMessage samplePendingScene Msg.FlushLayerChanges).pendingBuffers = [] ∧
    (applyMessage samplePendingScene Msg.FlushLayerChanges).sent = [OutMessage.RenderNextFrame] := by
  have h := flushLayerChanges_spec samplePendingScene
  refine ⟨by decide, ?_, h.1, by rw [h.2.1]; rfl⟩
  have h3 := h.2.2.1 3 (by decide)
  rw [h3]
  decide

/-- Claim C10: `purgeGLResources` clears every layer's backing store (the
synthetic root container's included), empties the directly-composited image
registry, releases the texture mapper, clears the pending-buffer set, and
sends exactly one `PurgeBackingStores` notification; it deletes no layer
node — the layer map keys, the current root layer id, and the container's
and every node's child list are unchanged. -/
theorem purgeGLResources_spec (s : ProxyState) :
    (purgeGLResources s).images = [] ∧
    (purgeGLResources s).textureMapperAlive = false ∧
    (purgeGLResources s).pendingBuffers = [] ∧
    (purgeGLResources s).sent = s.sent ++ [OutMessage.PurgeBackingStores] ∧
    (purgeGLResources s).rootLayerID = s.rootLayerID ∧
    (purgeGLResources s).crashed = s.crashed ∧
    ((purgeGLResources s).rootContainer.map (fun c => c.children)) =
      (s.rootContainer.map (fun c => c.children)) ∧
    ((purgeGLResources s).rootContainer.map (fun c => c.backingStore)) =
      (s.rootContainer.map (fun _ => (none : Option LayerBackingStore))) ∧
    (∀ k, (layerByID (purgeGLResources s) k).isSome = (layerByID s k).isSome) ∧
    (∀ k, ((layerByID (purgeGLResources s) k).map (fun n => n.children)) =
      ((layerByID s k).map (fun n => n.children))) ∧
    (∀ k, ((layerByID (purgeGLResources s) k).map (fun n => n.backingStore)) =
      ((layerByID s k).map (fun _ => (none : Option LayerBackingStore)))) := by
  have hlay : ∀ k, layerByID (purgeGLResources s) k =
      (layerByID s k).map (fun n => { n with backingStore := none }) := by
    intro k
    show layersFind (purgeGLResources s).layers k = _
    unfold purgeGLResources
    exact layersFind_map_keyfix s.layers
      (fun p => (p.1, { p.2 with backingStore := none }))
      (fun j n => { n with backingStore := none })
      (fun p => rfl) k
  refine ⟨rfl, rfl, rfl, rfl, rfl, rfl, ?_, ?_, ?_, ?_, ?_⟩
  · show (s.rootContainer.map (fun c => { c with backingStore := none })).map (fun c => c.children) = _
    cases s.rootContainer <;> rfl
  · show (s.rootContainer.map (fun c => { c with backingStore := none })).map (fun c => c.backingStore) = _
    cases s.rootContainer <;> rfl
  · intro k
    rw [hlay k]
    cases layerByID s k with
    | none => rfl
    | some n => simp
  · intro k
    rw [hlay k]
    cases layerByID s k with
    | none => rfl
    | some n => simp
  · intro k
    rw [hlay k]
    cases layerByID s k with
    | none => rfl
    | some n => simp

/-- Witness for C10: purging the attached-tile scene clears the backing
store that layer 5 held, keeps the node itself, and sends the single
notification with an empty image registry. -/
theorem purgeGLResources_spec_witness :
    ((layerByID attachedTileScene 5).map (fun n => n.backingStore.isSome)) = some true ∧
    ((layerByID (purgeGLResources attachedTileScene) 5).map (fun n => n.backingStore)) =
      some none ∧
    (purgeGLResources attachedTileScene).sent =
      attachedTileScene.sent ++ [OutMessage.PurgeBackingStores] ∧
    (purgeGLResources attachedTileScene).images = [] := by
  have h := purgeGLResources_spec attachedTileScene
  refine ⟨by decide, ?_, h.2.2.2.1, h.1⟩
  have h5 := h.2.2.2.2.2.2.2.2.2.2 5
  rw [h5]
  decide

/-!  Projection and presence lemmas for the sync pipeline stages. -/

theorem proj_updateNode {α : Type} (P : GraphicsLayerNode → α)
    (f : GraphicsLayerNode → GraphicsLayerNode) (hPf : ∀ n, P (f n) = P n)
    (s : ProxyState) (id k : Nat) :
    ((layerByID (updateNode s id f) k).map P) = ((layerByID s k).map P) := by
  rw [layerByID_updateNode]
  by_cases h : k = id
  · simp only [h, if_pos]
    cases layerByID s id <;> simp [hPf]
  · simp [h]

theorem proj_detachAll {α : Type} (P : GraphicsLayerNode → α)
    (hP : ∀ (n : GraphicsLayerNode) (ch : List Nat), P { n with children := ch } = P n)
    (s : ProxyState) (c k : Nat) :
    ((layerByID (detachAll s c) k).map P) = ((layerByID s k).map P) := by
  rw [layerByID_detachAll]
  cases layerByID s k <;> simp [hP]

theorem proj_childFold {α : Type} (P : GraphicsLayerNode → α)
    (hP : ∀ (n : GraphicsLayerNode) (ch : List Nat), P { n with children := ch } = P n)
    (l : Nat) (ids : List Nat) :
    ∀ (st : ProxyState) (k : Nat),
      ((layerByID (ids.foldl (fun st c =>
          updateNode (detachAll st c) l (fun n => { n with children := n.children ++ [c] })) st) k).map P) =
        ((layerByID st k).map P) := by
  induction ids with
  | nil => intro st k; rfl
  | cons c rest ih =>
    intro st k
    rw [List.foldl_cons, ih]
    rw [proj_updateNode P _ (fun n => hP n (n.children ++ [c]))]
    exact proj_detachAll P hP st c k

theorem proj_setChildrenOf {α : Type} (P : GraphicsLayerNode → α)
    (hP : ∀ (n : GraphicsLayerNode) (ch : List Nat), P { n with children := ch } = P n)
    (s : ProxyState) (l : Nat) (ids : List Nat) (k : Nat) :
    ((layerByID (setChildrenOf s l ids) k).map P) = ((layerByID s k).map P) := by
  unfold setChildrenOf
  rw [proj_childFold P hP l ids]
  exact proj_updateNode P _ (fun n => hP n []) s l k

theorem proj_setRootLayerID {α : Type} (P : GraphicsLayerNode → α)
    (hP : ∀ (n : GraphicsLayerNode) (ch : List Nat), P { n with children := ch } = P n)
    (s : ProxyState) (id k : Nat) :
    ((layerByID (setRootLayerID s id) k).map P) = ((layerByID s k).map P) := by
  unfold setRootLayerID
  split
  · rfl
  · split
    · rfl
    · dsimp only
      split
      · rfl
      · split
        · rfl
        · exact proj_detachAll P hP _ id k

theorem proj_rootReassign {α : Type} (P : GraphicsLayerNode → α)
    (hP : ∀ (n : GraphicsLayerNode) (ch : List Nat), P { n with children := ch } = P n)
    (st : ProxyState) (info : WebLayerInfo) (k : Nat) :
    ((layerByID (rootReassign st info) k).map P) = ((layerByID st k).map P) := by
  unfold rootReassign
  split
  · exact proj_setRootLayerID P hP st info.id k
  · rfl

theorem proj_applyAnimationsTo {α : Type} (P : GraphicsLayerNode → α)
    (hPa : ∀ (n : GraphicsLayerNode) (a : List (Nat × AnimationEntry)),
      P { n with animations := a } = P n)
    (st : ProxyState) (id : Nat) (anims : List WebLayerAnimation) (k : Nat) :
    ((layerByID (applyAnimationsTo st id anims) k).map P) = ((layerByID st k).map P) := by
  unfold applyAnimationsTo
  exact proj_updateNode P _ (fun n => hPa n _) st id k

theorem proj_assignImageToLayer {α : Type} (P : GraphicsLayerNode → α)
    (hPm : ∀ (n : GraphicsLayerNode) (b : Int), P { n with contentsMedia := some b } = P n)
    (s : ProxyState) (lid : Nat) (img : Int) (k : Nat) :
    ((layerByID (assignImageToLayer s lid img) k).map P) = ((layerByID s k).map P) := by
  unfold assignImageToLayer
  cases h : (s.images.find? (fun p => p.1 = img)).map (fun p => p.2) with
  | none => rfl
  | some b => exact proj_updateNode P _ (fun n => hPm n b) s lid k

theorem pres_of_projZero {u v : ProxyState} {k : Nat}
    (h : ((layerByID u k).map (fun _ => (0 : Nat))) = ((layerByID v k).map (fun _ => (0 : Nat)))) :
    (layerByID u k).isSome = (layerByID v k).isSome := by
  cases hu : layerByID u k <;> cases hv : layerByID v k <;> rw [hu, hv] at h <;> simp_all

theorem pres_layersAdd (s : ProxyState) (id : Nat) (n : GraphicsLayerNode) (k : Nat)
    (hk : (layerByID s k).isSome) : (layerByID (layersAdd s id n) k).isSome := by
  by_cases hik : k = id
  · subst hik
    rw [layersAdd_present s k n hk]
    exact hk
  · rw [layerByID_layersAdd_other s id n k hik]
    exact hk

theorem pres_materializeChildren (ids : List Nat) :
    ∀ (st : ProxyState) (k : Nat), (layerByID st k).isSome →
      (layerByID (materializeChildren st ids) k).isSome := by
  induction ids with
  | nil => intro st k hk; exact hk
  | cons c rest ih =>
    intro st k hk
    unfold materializeChildren at ih ⊢
    rw [List.foldl_cons]
    by_cases hc : (layerByID st c).isSome
    · simp only [hc, if_true, ite_true]
      exact ih st k hk
    · simp only [hc, if_false, ite_false, Bool.false_eq_true]
      exact ih _ k (pres_layersAdd st c defaultLayerNode k hk)

theorem layerByID_materializeChildren (ids : List Nat) :
    ∀ (st : ProxyState) (k : Nat), (layerByID st k).isSome →
      layerByID (materializeChildren st ids) k = layerByID st k := by
  induction ids with
  | nil => intro st k _; rfl
  | cons c rest ih =>
    intro st k hk
    unfold materializeChildren at ih ⊢
    rw [List.foldl_cons]
    by_cases hc : (layerByID st c).isSome
    · simp only [hc, if_true, ite_true]
      exact ih st k hk
    · simp only [hc, if_false, ite_false, Bool.false_eq_true]
      have hck : k ≠ c := by
        intro hkc
        rw [hkc] at hk
        exact absurd hk hc
      rw [ih _ k (pres_layersAdd st c defaultLayerNode k hk)]
      exact layerByID_layersAdd_other st c defaultLayerNode k hck

theorem materializeChildren_present (ids : List Nat) :
    ∀ (st : ProxyState) (c : Nat), c ∈ ids → c ≠ 0 →
      (layerByID (materializeChildren st ids) c).isSome := by
  induction ids with
  | nil => intro st c hc _; exact absurd hc (List.not_mem_nil c)
  | cons a rest ih =>
    intro st c hc hc0
    unfold materializeChildren at ih ⊢
    rw [List.foldl_cons]
    rcases List.mem_cons.mp hc with hca | hcr
    · subst hca
      by_cases ha : (layerByID st c).isSome
      · simp only [ha, if_true, ite_true]
        exact pres_materializeChildren rest st c ha
      · simp only [ha, if_false, ite_false, Bool.false_eq_true]
        have : layerByID st c = none := by
          cases h : layerByID st c
          · rfl
          · rw [h] at ha; exact absurd rfl ha
        exact pres_materializeChildren rest _ c
          (by rw [layerByID_layersAdd_self st c defaultLayerNode hc0 this]; rfl)
    · by_cases ha : (layerByID st a).isSome
      · simp only [ha, if_true, ite_true]
        exact ih st c hcr hc0
      · simp only [ha, if_false, ite_false, Bool.false_eq_true]
        exact ih _ c hcr hc0

theorem pres_setRootLayerID (s : ProxyState) (id k : Nat) :
    (layerByID (setRootLayerID s id) k).isSome = (layerByID s k).isSome :=
  pres_of_projZero (proj_setRootLayerID (fun _ => 0) (fun _ _ => rfl) s id k)

theorem pres_syncFieldsUpdate (u : ProxyState) (info : WebLayerInfo) (k : Nat) :
    (layerByID (syncFieldsUpdate u info) k).isSome = (layerByID u k).isSome :=
  pres_of_projZero (by
    unfold syncFieldsUpdate
    exact proj_updateNode (fun _ => (0 : Nat)) _ (fun _ => rfl) u info.id k)

theorem pres_syncFlagsUpdate (u : ProxyState) (info : WebLayerInfo) (k : Nat) :
    (layerByID (syncFlagsUpdate u info) k).isSome = (layerByID u k).isSome :=
  pres_of_projZero (by
    unfold syncFlagsUpdate
    exact proj_updateNode (fun _ => (0 : Nat)) _ (fun _ => rfl) u info.id k)

theorem pres_assignImageToLayer (u : ProxyState) (lid : Nat) (img : Int) (k : Nat) :
    (layerByID (assignImageToLayer u lid img) k).isSome = (layerByID u k).isSome :=
  pres_of_projZero (proj_assignImageToLayer (fun _ => (0 : Nat)) (fun _ _ => rfl) u lid img k)

theorem flags_stage_masksToBounds (u : ProxyState) (info : WebLayerInfo)
    (hp : (layerByID u info.id).isSome) :
    ((layerByID (syncFlagsUpdate u info) info.id).map (fun n => n.masksToBounds)) =
      some (if info.isRootLayer then false else info.masksToBounds) := by
  unfold syncFlagsUpdate
  rw [layerByID_updateNode, if_pos rfl]
  cases hn : layerByID u info.id
  · rw [hn] at hp
    exact absurd hp (by simp)
  · simp

theorem syncStages_masksToBounds (s1 : ProxyState) (info : WebLayerInfo) (b : Bool)
    (hp : (layerByID s1 info.id).isSome) :
    ((layerByID (syncStages s1 info b) info.id).map (fun n => n.masksToBounds)) =
      some (if info.isRootLayer then false else info.masksToBounds) := by
  unfold syncStages
  rw [proj_rootReassign (fun n => n.masksToBounds) (fun _ _ => rfl)]
  rw [proj_applyAnimationsTo (fun n => n.masksToBounds) (fun _ _ => rfl)]
  rw [proj_setChildrenOf (fun n => n.masksToBounds) (fun _ _ => rfl)]
  have hp3 : (layerByID (if b = true then
      assignImageToLayer (syncFieldsUpdate s1 info) info.id info.imageBackingStoreID
      else syncFieldsUpdate s1 info) info.id).isSome := by
    cases b
    · simp only [Bool.false_eq_true, if_false, ite_false]
      rw [pres_syncFieldsUpdate]
      exact hp
    · simp only [if_true, ite_true]
      rw [pres_assignImageToLayer, pres_syncFieldsUpdate]
      exact hp
  have hp4 : (layerByID (syncFlagsUpdate (if b = true then
      assignImageToLayer (syncFieldsUpdate s1 info) info.id info.imageBackingStoreID
      else syncFieldsUpdate s1 info) info) info.id).isSome := by
    rw [pres_syncFlagsUpdate]
    exact hp3
  rw [layerByID_materializeChildren info.children _ info.id hp4]
  exact flags_stage_masksToBounds _ info hp3

/-- Counterexample to C5 as stated: layer 5 is the current root
(`m_rootLayerID = 5`), yet a `SyncLayerParameters` for 5 whose descriptor is
not flagged root copies `masksToBounds = true` verbatim — the code forces
masks-to-bounds to false based on the descriptor's `isRootLayer` flag, not
on which layer is currently the root. -/
theorem root_masksToBounds_not_forced :
    rootNotFlaggedScene.rootLayerID = 5 ∧
    ((layerByID rootNotFlaggedScene 5).map (fun n => n.masksToBounds)) = some true := by
  constructor <;> decide

/-- Claim C5, amended: `syncLayerParameters` sets the node's masks-to-bounds
to false exactly when the incoming descriptor's `isRootLayer` flag is set —
regardless of which layer is currently the root — and copies the
descriptor's `masksToBounds` value verbatim otherwise. -/
theorem syncLayerParameters_masksToBounds (s : ProxyState) (info : WebLayerInfo)
    (h0 : info.id ≠ 0) :
    ((layerByID (applyMessage s (Msg.SyncLayerParameters info)) info.id).map
        (fun n => n.masksToBounds)) =
      some (if info.isRootLayer then false else info.masksToBounds) := by
  show ((layerByID (syncLayerParameters s info) info.id).map _) = _
  unfold syncLayerParameters
  dsimp only
  cases hf : layersFind (ensureLayer s info.id).layers info.id with
  | none =>
    have hs := layerByID_ensureLayer_self s info.id h0
    unfold layerByID at hs
    rw [hf] at hs
    simp at hs
  | some layer0 =>
    exact syncStages_masksToBounds (ensureLayer s info.id) info _
      (by unfold layerByID; rw [hf]; rfl)

/-- Witness for C5 (amended): a descriptor flagged root gets masks-to-bounds
forced to false even though it asked for true. -/
theorem syncLayerParameters_masksToBounds_witness :
    ((5 : Nat) ≠ 0) ∧
    ((layerByID (applyMessage initialProxyState
        (Msg.SyncLayerParameters { id := 5, isRootLayer := true, masksToBounds := true })) 5).map
        (fun n => n.masksToBounds)) = some false := by
  refine ⟨by decide, ?_⟩
  rw [syncLayerParameters_masksToBounds initialProxyState
    { id := 5, isRootLayer := true, masksToBounds := true } (by decide)]
  decide

theorem pres_updateNode (s : ProxyState) (id : Nat) (f : GraphicsLayerNode → GraphicsLayerNode)
    (k : Nat) : (layerByID (updateNode s id f) k).isSome = (layerByID s k).isSome :=
  pres_of_projZero (proj_updateNode (fun _ => (0 : Nat)) f (fun _ => rfl) s id k)

theorem pres_detachAll (s : ProxyState) (c k : Nat) :
    (layerByID (detachAll s c) k).isSome = (layerByID s k).isSome :=
  pres_of_projZero (proj_detachAll (fun _ => (0 : Nat)) (fun _ _ => rfl) s c k)

theorem pres_setChildrenOf (s : ProxyState) (l : Nat) (ids : List Nat) (k : Nat) :
    (layerByID (setChildrenOf s l ids) k).isSome = (layerByID s k).isSome :=
  pres_of_projZero (proj_setChildrenOf (fun _ => (0 : Nat)) (fun _ _ => rfl) s l ids k)

theorem pres_applyAnimationsTo (st : ProxyState) (id : Nat) (anims : List WebLayerAnimation)
    (k : Nat) : (layerByID (applyAnimationsTo st id anims) k).isSome = (layerByID st k).isSome :=
  pres_of_projZero (proj_applyAnimationsTo (fun _ => (0 : Nat)) (fun _ _ => rfl) st id anims k)

theorem pres_rootReassign (st : ProxyState) (info : WebLayerInfo) (k : Nat) :
    (layerByID (rootReassign st info) k).isSome = (layerByID st k).isSome :=
  pres_of_projZero (proj_rootReassign (fun _ => (0 : Nat)) (fun _ _ => rfl) st info k)

theorem pres_imageStage (s1 : ProxyState) (info : WebLayerInfo) (b : Bool) (k : Nat) :
    (layerByID (if b = true then
        assignImageToLayer (syncFieldsUpdate s1 info) info.id info.imageBackingStoreID
        else syncFieldsUpdate s1 info) k).isSome = (layerByID s1 k).isSome := by
  cases b
  · simp only [Bool.false_eq_true, if_false, ite_false]
    exact pres_syncFieldsUpdate s1 info k
  · simp only [if_true, ite_true]
    rw [pres_assignImageToLayer]
    exact pres_syncFieldsUpdate s1 info k

theorem pres_syncStages (s1 : ProxyState) (info : WebLayerInfo) (b : Bool) (k : Nat)
    (hk : (layerByID s1 k).isSome) : (layerByID (syncStages s1 info b) k).isSome := by
  unfold syncStages
  rw [pres_rootReassign, pres_applyAnimationsTo, pres_setChildrenOf]
  apply pres_materializeChildren
  rw [pres_syncFlagsUpdate, pres_imageStage]
  exact hk

theorem pres_swapBuffers (s : ProxyState) (k : Nat) :
    (layerByID (swapBuffers s) k).isSome = (layerByID s k).isSome := by
  apply pres_of_projZero
  show ((layersFind (swapBuffers s).layers k).map (fun _ => (0 : Nat))) =
    ((layersFind s.layers k).map (fun _ => (0 : Nat)))
  unfold swapBuffers
  rw [layersFind_map_keyfix s.layers _
    (fun j n => if j ∈ s.pendingBuffers then { n with backingStore := n.backingStore.map swapStore }
      else n)
    (fun p => by by_cases h : p.1 ∈ s.pendingBuffers <;> simp [h]) k]
  cases layersFind s.layers k <;> simp

theorem syncStages_id_present (s1 : ProxyState) (info : WebLayerInfo) (b : Bool)
    (hp : (layerByID s1 info.id).isSome) :
    (layerByID (syncStages s1 info b) info.id).isSome :=
  pres_syncStages s1 info b info.id hp

theorem syncStages_child_present (s1 : ProxyState) (info : WebLayerInfo) (b : Bool)
    (c : Nat) (hc : c ∈ info.children) (hc0 : c ≠ 0) :
    (layerByID (syncStages s1 info b) c).isSome := by
  unfold syncStages
  rw [pres_rootReassign, pres_applyAnimationsTo, pres_setChildrenOf]
  exact materializeChildren_present info.children _ c hc hc0

theorem syncStages_descriptor (s1 : ProxyState) (info : WebLayerInfo) (b : Bool)
    (hp : (layerByID s1 info.id).isSome) :
    ((layerByID (syncStages s1 info b) info.id).map (fun n => (n.name, n.pos, n.size))) =
      some (info.name, info.pos, info.size) := by
  unfold syncStages
  rw [proj_rootReassign (fun n => (n.name, n.pos, n.size)) (fun _ _ => rfl),
      proj_applyAnimationsTo (fun n => (n.name, n.pos, n.size)) (fun _ _ => rfl),
      proj_setChildrenOf (fun n => (n.name, n.pos, n.size)) (fun _ _ => rfl)]
  have hp4 : (layerByID (syncFlagsUpdate (if b = true then
      assignImageToLayer (syncFieldsUpdate s1 info) info.id info.imageBackingStoreID
      else syncFieldsUpdate s1 info) info) info.id).isSome := by
    rw [pres_syncFlagsUpdate, pres_imageStage]
    exact hp
  rw [layerByID_materializeChildren info.children _ info.id hp4]
  unfold syncFlagsUpdate
  rw [proj_updateNode (fun n => (n.name, n.pos, n.size))
    (fun n => { n with masksToBounds := if info.isRootLayer then false else info.masksToBounds,
                       opacity := info.opacity, preserves3D := info.preserves3D })
    (fun _ => rfl)]
  cases b
  · simp only [Bool.false_eq_true, if_false, ite_false]
    unfold syncFieldsUpdate
    rw [layerByID_updateNode, if_pos rfl]
    cases hn : layerByID s1 info.id
    · rw [hn] at hp
      exact absurd hp (by simp)
    · simp
  · simp only [if_true, ite_true]
    rw [proj_assignImageToLayer (fun n => (n.name, n.pos, n.size)) (fun _ _ => rfl)]
    unfold syncFieldsUpdate
    rw [layerByID_updateNode, if_pos rfl]
    cases hn : layerByID s1 info.id
    · rw [hn] at hp
      exact absurd hp (by simp)
    · simp

theorem presence_stable (u : ProxyState) (m : Msg) (k : Nat)
    (hk : (layerByID u k).isSome)
    (hdel : ∀ lid, m = Msg.DeleteLayer lid → lid ≠ k) :
    (layerByID (applyMessage u m) k).isSome := by
  cases m with
  | DeleteLayer lid =>
    have hlk : k ≠ lid := fun h => (hdel lid rfl) h.symm
    show (layerByID (deleteLayer u lid) k).isSome
    unfold deleteLayer
    cases h : layerByID u lid with
    | none => exact hk
    | some n =>
      show (layersFind ((detachAll u lid).layers.filter (fun p => p.1 ≠ lid)) k).isSome
      rw [layersFind_filter_ne _ lid k hlk]
      rw [show layersFind (detachAll u lid).layers k = layerByID (detachAll u lid) k from rfl]
      rw [pres_detachAll]
      exact hk
  | CreateTile lid tid sc =>
    show (layerByID (withBackingStore u lid (storeCreateTile tid sc)) k).isSome
    unfold withBackingStore
    dsimp only
    cases h : layerByID (ensureLayer u lid) lid with
    | none => exact pres_layersAdd u lid defaultLayerNode k hk
    | some n =>
      show (layerByID (updateNode (ensureLayer u lid) lid (fun m => { m with backingStore := some (storeCreateTile tid sc (n.backingStore.getD { tiles := [] })) })) k).isSome = true
      rw [pres_updateNode]
      exact pres_layersAdd u lid defaultLayerNode k hk
  | RemoveTile lid tid =>
    show (layerByID (withBackingStore u lid (storeRemoveTile tid)) k).isSome
    unfold withBackingStore
    dsimp only
    cases h : layerByID (ensureLayer u lid) lid with
    | none => exact pres_layersAdd u lid defaultLayerNode k hk
    | some n =>
      show (layerByID (updateNode (ensureLayer u lid) lid (fun m => { m with backingStore := some (storeRemoveTile tid (n.backingStore.getD { tiles := [] })) })) k).isSome = true
      rw [pres_updateNode]
      exact pres_layersAdd u lid defaultLayerNode k hk
  | UpdateTile lid tid a b c =>
    show (layerByID (updateTile u lid tid a b c) k).isSome
    unfold updateTile
    dsimp only
    cases h : layerByID (ensureLayer u lid) lid with
    | none => exact pres_layersAdd u lid defaultLayerNode k hk
    | some n =>
      show (layerByID (updateNode (ensureLayer u lid) lid (fun m => { m with backingStore := some (storeUpdateTile tid a b c (n.backingStore.getD { tiles := [] })) })) k).isSome = true
      rw [pres_updateNode]
      exact pres_layersAdd u lid defaultLayerNode k hk
  | CreateImage i b =>
    show (layerByID (createImage u i b) k).isSome
    unfold createImage
    split <;> exact hk
  | DestroyImage i => exact hk
  | FlushLayerChanges =>
    show (layerByID (flushLayerChanges u) k).isSome
    unfold flushLayerChanges
    rw [show layerByID { swapBuffers u with sent := (swapBuffers u).sent ++ [OutMessage.RenderNextFrame] } k = layerByID (swapBuffers u) k from rfl]
    rw [pres_swapBuffers]
    exact hk
  | SetRootLayer lid =>
    show (layerByID (setRootLayerID u lid) k).isSome
    rw [pres_setRootLayerID]
    exact hk
  | SyncLayerParameters info =>
    show (layerByID (syncLayerParameters u info) k).isSome
    unfold syncLayerParameters
    dsimp only
    cases hf : layersFind (ensureLayer u info.id).layers info.id with
    | none => exact pres_layersAdd u info.id defaultLayerNode k hk
    | some layer0 =>
      exact pres_syncStages (ensureLayer u info.id) info _ k
        (pres_layersAdd u info.id defaultLayerNode k hk)

/-- Claim C3: `SyncLayerParameters` for an id with no node first creates a
node for that id and then applies the descriptor to it (name, position and
size shown as representatives); every child id in the descriptor resolves
to a node afterwards (unknown children are materialized as placeholders);
the node registered under the id is not replaced by `ensureLayer` on a
later sync; and an id that resolves to a node keeps resolving under every
command except an explicit `DeleteLayer` of that very id. -/
theorem syncLayerParameters_materializes (s : ProxyState) (info : WebLayerInfo)
    (h0 : info.id ≠ 0) :
    ((layerByID (applyMessage s (Msg.SyncLayerParameters info)) info.id).isSome = true) ∧
    (((layerByID (applyMessage s (Msg.SyncLayerParameters info)) info.id).map
        (fun n => (n.name, n.pos, n.size))) = some (info.name, info.pos, info.size)) ∧
    (∀ c ∈ info.children, c ≠ 0 →
      (layerByID (applyMessage s (Msg.SyncLayerParameters info)) c).isSome = true) ∧
    (ensureLayer (applyMessage s (Msg.SyncLayerParameters info)) info.id =
      applyMessage s (Msg.SyncLayerParameters info)) ∧
    (∀ (u : ProxyState) (m : Msg) (k : Nat), (layerByID u k).isSome →
      (∀ lid, m = Msg.DeleteLayer lid → lid ≠ k) →
      (layerByID (applyMessage u m) k).isSome) := by
  have hp1 : (layerByID (ensureLayer s info.id) info.id).isSome :=
    layerByID_ensureLayer_self s info.id h0
  cases hfe : layersFind (ensureLayer s info.id).layers info.id with
  | none =>
    exfalso
    unfold layerByID at hp1
    rw [hfe] at hp1
    simp at hp1
  | some layer0 =>
    have ht : applyMessage s (Msg.SyncLayerParameters info) =
        syncStages (ensureLayer s info.id) info
          (info.imageIsUpdated ||
            (decide (info.contentsRect ≠ layer0.contentsRect) &&
              decide (info.imageBackingStoreID ≠ 0))) := by
      show syncLayerParameters s info = _
      unfold syncLayerParameters
      dsimp only
      rw [hfe]
    rw [ht]
    refine ⟨?_, ?_, ?_, ?_, presence_stable⟩
    · exact syncStages_id_present _ info _ hp1
    · exact syncStages_descriptor _ info _ hp1
    · intro c hc hc0
      exact syncStages_child_present _ info _ c hc hc0
    · exact ensureLayer_of_present (syncStages_id_present _ info _ hp1)

/-- Witness for C3: syncing unknown layer 1 with unknown child 2 creates
both nodes and installs the descriptor's attributes on node 1. -/
theorem syncLayerParameters_materializes_witness :
    layerByID initialProxyState 1 = none ∧
    layerByID initialProxyState 2 = none ∧
    ((layerByID (applyMessage initialProxyState
      (Msg.SyncLayerParameters { id := 1, pos := 4, children := [2] })) 1).isSome = true) ∧
    ((layerByID (applyMessage initialProxyState
      (Msg.SyncLayerParameters { id := 1, pos := 4, children := [2] })) 2).isSome = true) ∧
    (((layerByID (applyMessage initialProxyState
      (Msg.SyncLayerParameters { id := 1, pos := 4, children := [2] })) 1).map
        (fun n => (n.name, n.pos, n.size))) = some (0, 4, 0)) := by
  have h := syncLayerParameters_materializes initialProxyState
    { id := 1, pos := 4, children := [2] } (by decide)
  exact ⟨by decide, by decide, h.1, h.2.2.1 2 (by decide) (by decide), h.2.1⟩

/-!  Preservation of the crash flag and the root container. -/

theorem crashed_layersAdd (s : ProxyState) (id : Nat) (n : GraphicsLayerNode) :
    (layersAdd s id n).crashed = s.crashed := by
  unfold layersAdd
  split <;> rfl

theorem rc_layersAdd (s : ProxyState) (id : Nat) (n : GraphicsLayerNode) :
    (layersAdd s id n).rootContainer = s.rootContainer := by
  unfold layersAdd
  split <;> rfl

theorem rc_detachAll_isSome (s : ProxyState) (c : Nat) :
    (detachAll s c).rootContainer.isSome = s.rootContainer.isSome := by
  unfold detachAll
  cases s.rootContainer <;> rfl

theorem crashed_childFold (l : Nat) (ids : List Nat) :
    ∀ st : ProxyState, (ids.foldl (fun st c =>
      updateNode (detachAll st c) l (fun n => { n with children := n.children ++ [c] })) st).crashed =
      st.crashed := by
  induction ids with
  | nil => intro st; rfl
  | cons c rest ih =>
    intro st
    rw [List.foldl_cons, ih]
    rfl

theorem crashed_setChildrenOf (s : ProxyState) (l : Nat) (ids : List Nat) :
    (setChildrenOf s l ids).crashed = s.crashed := by
  unfold setChildrenOf
  rw [crashed_childFold]
  rfl

theorem rc_childFold_isSome (l : Nat) (ids : List Nat) :
    ∀ st : ProxyState, ((ids.foldl (fun st c =>
      updateNode (detachAll st c) l (fun n => { n with children := n.children ++ [c] })) st).rootContainer).isSome =
      st.rootContainer.isSome := by
  induction ids with
  | nil => intro st; rfl
  | cons c rest ih =>
    intro st
    rw [List.foldl_cons, ih]
    show ((detachAll st c).rootContainer).isSome = _
    exact rc_detachAll_isSome st c

theorem rc_setChildrenOf_isSome (s : ProxyState) (l : Nat) (ids : List Nat) :
    ((setChildrenOf s l ids).rootContainer).isSome = s.rootContainer.isSome := by
  unfold setChildrenOf
  rw [rc_childFold_isSome]
  rfl

theorem crashed_materializeChildren (ids : List Nat) :
    ∀ st : ProxyState, (materializeChildren st ids).crashed = st.crashed := by
  induction ids with
  | nil => intro st; rfl
  | cons c rest ih =>
    intro st
    unfold materializeChildren at ih ⊢
    rw [List.foldl_cons]
    by_cases hc : (layerByID st c).isSome
    · simp only [hc, if_true, ite_true]
      exact ih st
    · simp only [hc, if_false, ite_false, Bool.false_eq_true]
      rw [ih]
      exact crashed_layersAdd st c defaultLayerNode

theorem rc_materializeChildren (ids : List Nat) :
    ∀ st : ProxyState, (materializeChildren st ids).rootContainer = st.rootContainer := by
  induction ids with
  | nil => intro st; rfl
  | cons c rest ih =>
    intro st
    unfold materializeChildren at ih ⊢
    rw [List.foldl_cons]
    by_cases hc : (layerByID st c).isSome
    · simp only [hc, if_true, ite_true]
      exact ih st
    · simp only [hc, if_false, ite_false, Bool.false_eq_true]
      rw [ih]
      exact rc_layersAdd st c defaultLayerNode

theorem crashed_assignImageToLayer (s : ProxyState) (lid : Nat) (img : Int)
    (h : ((s.images.find? (fun p => p.1 = img)).isSome = true)) :
    (assignImageToLayer s lid img).crashed = s.crashed := by
  unfold assignImageToLayer
  cases hf : (s.images.find? (fun p => p.1 = img)).map (fun p => p.2) with
  | none =>
    exfalso
    cases hg : s.images.find? (fun p => p.1 = img)
    · rw [hg] at h; simp at h
    · rw [hg] at hf; simp at hf
  | some b => rfl

theorem rc_assignImageToLayer (s : ProxyState) (lid : Nat) (img : Int) :
    (assignImageToLayer s lid img).rootContainer = s.rootContainer := by
  unfold assignImageToLayer
  cases (s.images.find? (fun p => p.1 = img)).map (fun p => p.2) <;> rfl

theorem crashed_setRootLayerID (s : ProxyState) (id : Nat) (h : s.rootContainer.isSome) :
    (setRootLayerID s id).crashed = s.crashed := by
  unfold setRootLayerID
  split
  · rfl
  · split
    · rename_i heq
      rw [heq] at h
      simp at h
    · dsimp only
      split
      · rfl
      · split <;> rfl

theorem crashed_rootReassign (st : ProxyState) (info : WebLayerInfo)
    (h : st.rootContainer.isSome) :
    (rootReassign st info).crashed = st.crashed := by
  unfold rootReassign
  split
  · exact crashed_setRootLayerID st info.id h
  · rfl

theorem crashed_applyAnimationsTo (st : ProxyState) (id : Nat) (anims : List WebLayerAnimation) :
    (applyAnimationsTo st id anims).crashed = st.crashed := rfl

theorem rc_applyAnimationsTo (st : ProxyState) (id : Nat) (anims : List WebLayerAnimation) :
    (applyAnimationsTo st id anims).rootContainer = st.rootContainer := rfl

theorem crashed_syncFlagsUpdate (u : ProxyState) (info : WebLayerInfo) :
    (syncFlagsUpdate u info).crashed = u.crashed := rfl

theorem rc_syncFlagsUpdate (u : ProxyState) (info : WebLayerInfo) :
    (syncFlagsUpdate u info).rootContainer = u.rootContainer := rfl

theorem crashed_syncFieldsUpdate (u : ProxyState) (info : WebLayerInfo) :
    (syncFieldsUpdate u info).crashed = u.crashed := rfl

theorem rc_syncFieldsUpdate (u : ProxyState) (info : WebLayerInfo) :
    (syncFieldsUpdate u info).rootContainer = u.rootContainer := rfl

theorem rc_imageStage (s1 : ProxyState) (info : WebLayerInfo) (b : Bool) :
    ((if b = true then
        assignImageToLayer (syncFieldsUpdate s1 info) info.id info.imageBackingStoreID
        else syncFieldsUpdate s1 info).rootContainer) = s1.rootContainer := by
  cases b
  · simp only [Bool.false_eq_true, if_false, ite_false]
    exact rc_syncFieldsUpdate s1 info
  · simp only [if_true, ite_true]
    rw [rc_assignImageToLayer]
    exact rc_syncFieldsUpdate s1 info

theorem crashed_syncLayerParameters (s : ProxyState) (info : WebLayerInfo)
    (h0 : info.id ≠ 0) (hrc : s.rootContainer.isSome = true)
    (himg : (info.imageIsUpdated = true ∨ info.imageBackingStoreID ≠ 0) →
      ((s.images.find? (fun p => p.1 = info.imageBackingStoreID)).isSome = true)) :
    (syncLayerParameters s info).crashed = s.crashed := by
  have hp1 : (layerByID (ensureLayer s info.id) info.id).isSome :=
    layerByID_ensureLayer_self s info.id h0
  cases hfe : layersFind (ensureLayer s info.id).layers info.id with
  | none =>
    exfalso
    unfold layerByID at hp1
    rw [hfe] at hp1
    simp at hp1
  | some layer0 =>
    have ht : syncLayerParameters s info =
        syncStages (ensureLayer s info.id) info
          (info.imageIsUpdated ||
            (decide (info.contentsRect ≠ layer0.contentsRect) &&
              decide (info.imageBackingStoreID ≠ 0))) := by
      unfold syncLayerParameters
      dsimp only
      rw [hfe]
    rw [ht]
    unfold syncStages
    have himgs : (syncFieldsUpdate (ensureLayer s info.id) info).images = s.images := by
      show (ensureLayer s info.id).images = s.images
      exact (ensureLayer_scalars s info.id).2.2.1
    rw [crashed_rootReassign _ info (by
      rw [rc_applyAnimationsTo, rc_setChildrenOf_isSome, rc_materializeChildren,
        rc_syncFlagsUpdate, rc_imageStage]
      rw [show (ensureLayer s info.id).rootContainer = s.rootContainer from
        (ensureLayer_scalars s info.id).2.1]
      exact hrc)]
    rw [crashed_applyAnimationsTo, crashed_setChildrenOf, crashed_materializeChildren,
      crashed_syncFlagsUpdate]
    cases hb : (info.imageIsUpdated ||
        (decide (info.contentsRect ≠ layer0.contentsRect) &&
          decide (info.imageBackingStoreID ≠ 0))) with
    | false =>
      simp only [Bool.false_eq_true, if_false, ite_false]
      show (ensureLayer s info.id).crashed = s.crashed
      exact (ensureLayer_scalars s info.id).2.2.2.2.2.1
    | true =>
      simp only [if_true, ite_true]
      have hcond : info.imageIsUpdated = true ∨ info.imageBackingStoreID ≠ 0 := by
        have hb2 := hb
        simp only [Bool.or_eq_true, Bool.and_eq_true, decide_eq_true_eq] at hb2
        rcases hb2 with h1 | h2
        · exact Or.inl h1
        · exact Or.inr h2.2
      rw [crashed_assignImageToLayer _ info.id info.imageBackingStoreID (by
        rw [himgs]
        exact himg hcond)]
      rw [crashed_syncFieldsUpdate]
      show (ensureLayer s info.id).crashed = s.crashed
      exact (ensureLayer_scalars s info.id).2.2.2.2.2.1

/-- Counterexample to C7 as stated: a `SyncLayerParameters` whose descriptor
has the image-updated flag set and names image id 7, applied while no image
7 is registered, fails the `ASSERT` in `assignImageToLayer` (and
dereferences an end iterator) — command processing does not complete
normally. -/
theorem sync_unknown_image_asserts :
    (ensureRootLayer initialProxyState).crashed = false ∧
    (applyMessage (ensureRootLayer initialProxyState)
      (Msg.SyncLayerParameters { id := 1, imageIsUpdated := true, imageBackingStoreID := 7 })).crashed =
      true := by
  constructor <;> decide

/-- Claim C7, amended: mutation commands that reference unknown layer or
tile ids materialize the missing object or are no-ops and never abort
command processing — for every valid layer id (nonzero; 0 is the reserved
null id) and, for `SetRootLayer` and `SyncLayerParameters`, once the
synthetic root container exists (the drain loop runs `ensureRootLayer`
before any command).  The exception the code carries is the image
assignment: `SyncLayerParameters` completes without failing only when the
descriptor references no image or the referenced image id is registered;
an unregistered image id fails an assertion (see the counterexample). -/
theorem mutation_commands_no_crash (s : ProxyState) :
    (∀ (lid : Nat) (tid scale : Int), lid ≠ 0 →
      (applyMessage s (Msg.CreateTile lid tid scale)).crashed = s.crashed) ∧
    (∀ (lid : Nat) (tid : Int), lid ≠ 0 →
      (applyMessage s (Msg.RemoveTile lid tid)).crashed = s.crashed) ∧
    (∀ (lid : Nat) (tid src tgt bmp : Int), lid ≠ 0 →
      (applyMessage s (Msg.UpdateTile lid tid src tgt bmp)).crashed = s.crashed) ∧
    (∀ lid : Nat, (applyMessage s (Msg.DeleteLayer lid)).crashed = s.crashed) ∧
    (∀ i b : Int, (applyMessage s (Msg.CreateImage i b)).crashed = s.crashed) ∧
    (∀ i : Int, (applyMessage s (Msg.DestroyImage i)).crashed = s.crashed) ∧
    ((applyMessage s Msg.FlushLayerChanges).crashed = s.crashed) ∧
    (∀ lid : Nat, s.rootContainer.isSome = true →
      (applyMessage s (Msg.SetRootLayer lid)).crashed = s.crashed) ∧
    (∀ info : WebLayerInfo, info.id ≠ 0 → s.rootContainer.isSome = true →
      ((info.imageIsUpdated = true ∨ info.imageBackingStoreID ≠ 0) →
        ((s.images.find? (fun p => p.1 = info.imageBackingStoreID)).isSome = true)) →
      (applyMessage s (Msg.SyncLayerParameters info)).crashed = s.crashed) := by
  have htile : ∀ (lid : Nat) (f : LayerBackingStore → LayerBackingStore), lid ≠ 0 →
      (withBackingStore s lid f).crashed = s.crashed := by
    intro lid f hlid
    unfold withBackingStore
    dsimp only
    cases h : layerByID (ensureLayer s lid) lid with
    | none =>
      exfalso
      have := layerByID_ensureLayer_self s lid hlid
      rw [h] at this
      simp at this
    | some n =>
      show (ensureLayer s lid).crashed = s.crashed
      exact (ensureLayer_scalars s lid).2.2.2.2.2.1
  refine ⟨?_, ?_, ?_, ?_, ?_, ?_, rfl, ?_, ?_⟩
  · intro lid tid scale hlid
    exact htile lid (storeCreateTile tid scale) hlid
  · intro lid tid hlid
    exact htile lid (storeRemoveTile tid) hlid
  · intro lid tid src tgt bmp hlid
    show (updateTile s lid tid src tgt bmp).crashed = s.crashed
    unfold updateTile
    dsimp only
    cases h : layerByID (ensureLayer s lid) lid with
    | none =>
      exfalso
      have := layerByID_ensureLayer_self s lid hlid
      rw [h] at this
      simp at this
    | some n =>
      show (ensureLayer s lid).crashed = s.crashed
      exact (ensureLayer_scalars s lid).2.2.2.2.2.1
  · intro lid
    show (deleteLayer s lid).crashed = s.crashed
    unfold deleteLayer
    cases h : layerByID s lid <;> rfl
  · intro i b
    show (createImage s i b).crashed = s.crashed
    unfold createImage
    split <;> rfl
  · intro i
    rfl
  · intro lid hrc
    exact crashed_setRootLayerID s lid hrc
  · intro info h0 hrc himg
    exact crashed_syncLayerParameters s info h0 hrc himg

/-- Witness for C7 (amended): tile commands on the unknown layer 9, deleting
the unknown layer 9, and a sync referencing registered image 7 all complete
without failing. -/
theorem mutation_commands_no_crash_witness :
    ((9 : Nat) ≠ 0) ∧
    (applyMessage (ensureRootLayer initialProxyState) (Msg.CreateTile 9 1 1)).crashed = false ∧
    (applyMessage (ensureRootLayer initialProxyState) (Msg.DeleteLayer 9)).crashed = false ∧
    (applyMessage (applyMessage (ensureRootLayer initialProxyState) (Msg.CreateImage 7 3))
      (Msg.SyncLayerParameters { id := 1, imageIsUpdated := true, imageBackingStoreID := 7 })).crashed =
      false := by
  have h1 := (mutation_commands_no_crash (ensureRootLayer initialProxyState)).1 9 1 1 (by decide)
  have h4 := (mutation_commands_no_crash (ensureRootLayer initialProxyState)).2.2.2.1 9
  have h9 := (mutation_commands_no_crash
      (applyMessage (ensureRootLayer initialProxyState) (Msg.CreateImage 7 3))).2.2.2.2.2.2.2.2
    { id := 1, imageIsUpdated := true, imageBackingStoreID := 7 }
    (by decide) (by decide) (fun _ => by decide)
  refine ⟨by decide, ?_, ?_, ?_⟩
  · rw [h1]; decide
  · rw [h4]; decide
  · rw [h9]; decide

/-- Counterexample to C4 as stated: mask and replica ids are resolved
against the state at the time each `SyncLayerParameters` is applied, so a
batch in which layer 1 names the not-yet-existing layer 2 as its mask ends
with `mask = none`; replaying the identical batch from the committed state
finds layer 2 and ends with `mask = some 2` — a different scene graph. -/
theorem replay_not_idempotent :
    ((layerByID ((syncRemoteContent initialProxyState maskBatch).1) 1).map (fun n => n.mask)) =
      some none ∧
    ((layerByID ((syncRemoteContent ((syncRemoteContent initialProxyState maskBatch).1)
        maskBatch).1) 1).map (fun n => n.mask)) = some (some 2) ∧
    sceneGraphOf ((syncRemoteContent ((syncRemoteContent initialProxyState maskBatch).1)
        maskBatch).1) ≠
      sceneGraphOf ((syncRemoteContent initialProxyState maskBatch).1) := by
  refine ⟨by decide, by decide, by decide⟩

/-!  List-level identity lemmas used by the replay development. -/

theorem map_congr_id {β : Type} (g : β → β) (l : List β) (h : ∀ p ∈ l, g p = p) :
    l.map g = l := by
  induction l with
  | nil => rfl
  | cons p t ih =>
    rw [List.map_cons, h p (List.mem_cons_self p t), ih (fun q hq => h q (List.mem_cons_of_mem p hq))]

theorem updateNode_congr_id (s : ProxyState) (id : Nat) (f : GraphicsLayerNode → GraphicsLayerNode)
    (h : ∀ p ∈ s.layers, p.1 = id → f p.2 = p.2) : updateNode s id f = s := by
  unfold updateNode
  have : s.layers.map (fun p => if p.1 = id then (p.1, f p.2) else p) = s.layers := by
    apply map_congr_id
    intro p hp
    by_cases hpk : p.1 = id
    · simp only [hpk, if_pos, ite_true]
      rw [h p hp hpk, ← hpk]
    · simp [hpk]
  rw [this]

theorem swapBuffers_empty (x : ProxyState) (h : x.pendingBuffers = []) :
    swapBuffers x = { x with pendingBuffers := [] } := by
  unfold swapBuffers
  rw [h]
  have : x.layers.map (fun p => if p.1 ∈ ([] : List Nat) then
      (p.1, { p.2 with backingStore := p.2.backingStore.map swapStore }) else p) = x.layers := by
    apply map_congr_id
    intro p _
    simp
  rw [this]

theorem scene_flushLayerChanges_of_empty (x : ProxyState) (h : x.pendingBuffers = []) :
    sceneGraphOf (flushLayerChanges x) = sceneGraphOf x := by
  unfold flushLayerChanges sceneGraphOf
  rw [swapBuffers_empty x h]

theorem scene_eq_of_components {a b : ProxyState} (h1 : a.layers = b.layers)
    (h2 : a.rootLayerID = b.rootLayerID) (h3 : a.rootContainer = b.rootContainer) :
    sceneGraphOf a = sceneGraphOf b := by
  unfold sceneGraphOf
  rw [h1, h2, h3]

theorem proxyState_ext (a b : ProxyState) (h1 : a.layers = b.layers)
    (h2 : a.rootLayerID = b.rootLayerID) (h3 : a.rootContainer = b.rootContainer)
    (h4 : a.images = b.images) (h5 : a.pendingBuffers = b.pendingBuffers)
    (h6 : a.sent = b.sent) (h7 : a.crashed = b.crashed)
    (h8 : a.textureMapperAlive = b.textureMapperAlive) (h9 : a.now = b.now) : a = b := by
  cases a
  cases b
  simp_all

theorem node_set_children_self (n : GraphicsLayerNode) (ch : List Nat)
    (h : n.children = ch) : { n with children := ch } = n := by
  subst h
  rfl

theorem node_set_store_self (n : GraphicsLayerNode) (st : Option LayerBackingStore)
    (h : n.backingStore = st) : { n with backingStore := st } = n := by
  subst h
  rfl

theorem filter_ne_notMem (c : Nat) (rest : List Nat) (L : List Nat) :
    (L.filter (fun x => x ≠ c)).filter (fun x => decide (x ∉ rest)) =
      L.filter (fun x => decide (x ∉ c :: rest)) := by
  induction L with
  | nil => rfl
  | cons a t ih =>
    by_cases hac : a = c
    · subst hac
      simp only [List.filter_cons]
      have h1 : (decide (a ≠ a)) = false := by simp
      have h2 : (decide (a ∉ a :: rest)) = false := by simp
      rw [h1, h2]
      simp only [Bool.false_eq_true, if_false, ite_false]
      exact ih
    · simp only [List.filter_cons]
      have h1 : (decide (a ≠ c)) = true := by simp [hac]
      rw [h1]
      simp only [if_true, ite_true, List.filter_cons]
      by_cases har : a ∈ rest
      · have h2 : (decide (a ∉ rest)) = false := by simp [har]
        have h3 : (decide (a ∉ c :: rest)) = false := by simp [har]
        rw [h2, h3]
        simp only [Bool.false_eq_true, if_false, ite_false]
        exact ih
      · have h2 : (decide (a ∉ rest)) = true := by simp [har]
        have h3 : (decide (a ∉ c :: rest)) = true := by simp [hac, har]
        rw [h2, h3]
        simp only [if_true, ite_true]
        rw [ih]

theorem childStep_layers (l c : Nat) (st : ProxyState) :
    (updateNode (detachAll st c) l (fun n => { n with children := n.children ++ [c] })).layers =
      st.layers.map (fun p =>
        if p.1 = l then
          (p.1, { p.2 with children := p.2.children.filter (fun x => x ≠ c) ++ [c] })
        else (p.1, { p.2 with children := p.2.children.filter (fun x => x ≠ c) })) := by
  show ((st.layers.map _).map _) = _
  rw [List.map_map]
  refine congrFun (congrArg List.map (funext fun p => ?_)) st.layers
  by_cases h : p.1 = l <;> simp [Function.comp, h]

theorem childFold_layers (l : Nat) (ids : List Nat) :
    ∀ st : ProxyState,
      (ids.foldl (fun st c =>
        updateNode (detachAll st c) l (fun n => { n with children := n.children ++ [c] })) st).layers =
      st.layers.map (fun p =>
        if p.1 = l then
          (p.1, { p.2 with children := ids.foldl (fun acc c => acc.filter (fun x => x ≠ c) ++ [c]) p.2.children })
        else (p.1, { p.2 with children := p.2.children.filter (fun x => decide (x ∉ ids)) })) := by
  induction ids with
  | nil =>
    intro st
    simp only [List.foldl_nil]
    have heq : st.layers.map (fun p =>
        if p.1 = l then (p.1, { p.2 with children := p.2.children })
        else (p.1, { p.2 with children := p.2.children.filter (fun x => decide (x ∉ ([] : List Nat))) })) =
        st.layers := by
      apply map_congr_id
      intro p _
      by_cases h : p.1 = l
      · simp only [h, if_pos, ite_true]
        rw [← h]
      · simp only [h, if_neg, ite_false]
        have hf : p.2.children.filter (fun x => decide (x ∉ ([] : List Nat))) = p.2.children := by
          apply List.filter_eq_self.mpr
          intro a _
          simp
        rw [hf]
    exact heq.symm
  | cons c rest ih =>
    intro st
    rw [List.foldl_cons, ih, childStep_layers, List.map_map]
    refine congrFun (congrArg List.map (funext fun p => ?_)) st.layers
    by_cases h : p.1 = l
    · simp only [Function.comp, h, if_pos, ite_true, List.foldl_cons]
    · simp only [Function.comp, h, if_neg, ite_false]
      rw [filter_ne_notMem]

theorem childFold_rootContainer (l : Nat) (ids : List Nat) :
    ∀ st : ProxyState,
      (ids.foldl (fun st c =>
        updateNode (detachAll st c) l (fun n => { n with children := n.children ++ [c] })) st).rootContainer =
      st.rootContainer.map (fun rc =>
        { rc with children := rc.children.filter (fun x => decide (x ∉ ids)) }) := by
  induction ids with
  | nil =>
    intro st
    simp only [List.foldl_nil]
    cases hc : st.rootContainer with
    | none => rfl
    | some rc =>
      simp only [Option.map_some']
      rw [List.filter_eq_self.mpr (fun a _ => by simp)]
  | cons c rest ih =>
    intro st
    rw [List.foldl_cons, ih]
    have hstep : (updateNode (detachAll st c) l
        (fun n => { n with children := n.children ++ [c] })).rootContainer =
        st.rootContainer.map (fun rc => { rc with children := rc.children.filter (fun x => x ≠ c) }) :=
      rfl
    rw [hstep]
    cases hc : st.rootContainer with
    | none => rfl
    | some rc =>
      simp only [Option.map_some']
      rw [filter_ne_notMem]

theorem childFold_scalars (l : Nat) (ids : List Nat) :
    ∀ st : ProxyState,
      ((ids.foldl (fun st c =>
        updateNode (detachAll st c) l (fun n => { n with children := n.children ++ [c] })) st).rootLayerID =
          st.rootLayerID ∧
       (ids.foldl (fun st c =>
        updateNode (detachAll st c) l (fun n => { n with children := n.children ++ [c] })) st).images =
          st.images ∧
       (ids.foldl (fun st c =>
        updateNode (detachAll st c) l (fun n => { n with children := n.children ++ [c] })) st).pendingBuffers =
          st.pendingBuffers ∧
       (ids.foldl (fun st c =>
        updateNode (detachAll st c) l (fun n => { n with children := n.children ++ [c] })) st).sent =
          st.sent ∧
       (ids.foldl (fun st c =>
        updateNode (detachAll st c) l (fun n => { n with children := n.children ++ [c] })) st).crashed =
          st.crashed ∧
       (ids.foldl (fun st c =>
        updateNode (detachAll st c) l (fun n => { n with children := n.children ++ [c] })) st).textureMapperAlive =
          st.textureMapperAlive ∧
       (ids.foldl (fun st c =>
        updateNode (detachAll st c) l (fun n => { n with children := n.children ++ [c] })) st).now =
          st.now) := by
  induction ids with
  | nil => intro st; exact ⟨rfl, rfl, rfl, rfl, rfl, rfl, rfl⟩
  | cons c rest ih =>
    intro st
    rw [List.foldl_cons]
    exact ih _

theorem setChildrenOf_eq (st : ProxyState) (l : Nat) (ids : List Nat) :
    setChildrenOf st l ids = { st with
      layers := st.layers.map (fun p =>
        if p.1 = l then (p.1, { p.2 with children := childrenResult ids })
        else (p.1, { p.2 with children := p.2.children.filter (fun x => decide (x ∉ ids)) })),
      rootContainer := st.rootContainer.map (fun rc =>
        { rc with children := rc.children.filter (fun x => decide (x ∉ ids)) }) } := by
  have hscal := childFold_scalars l ids (updateNode st l (fun n => { n with children := [] }))
  apply proxyState_ext
  · show (ids.foldl (fun st c =>
      updateNode (detachAll st c) l (fun n => { n with children := n.children ++ [c] }))
        (updateNode st l (fun n => { n with children := [] }))).layers = _
    rw [childFold_layers]
    show ((st.layers.map _).map _) = _
    rw [List.map_map]
    refine congrFun (congrArg List.map (funext fun p => ?_)) st.layers
    by_cases h : p.1 = l
    · simp only [Function.comp, h, if_pos, ite_true]
      rfl
    · simp only [Function.comp, h, if_neg, ite_false]
  · exact hscal.1
  · show (ids.foldl (fun st c =>
      updateNode (detachAll st c) l (fun n => { n with children := n.children ++ [c] }))
        (updateNode st l (fun n => { n with children := [] }))).rootContainer = _
    rw [childFold_rootContainer]
    rfl
  · exact hscal.2.1
  · exact hscal.2.2.1
  · exact hscal.2.2.2.1
  · exact hscal.2.2.2.2.1
  · exact hscal.2.2.2.2.2.1
  · exact hscal.2.2.2.2.2.2

theorem setChildrenOf_id (st : ProxyState) (l : Nat) (ids : List Nat)
    (hself : ∀ p ∈ st.layers, p.1 = l → p.2.children = childrenResult ids)
    (hothers : ∀ p ∈ st.layers, p.1 ≠ l → ∀ c ∈ ids, c ∉ p.2.children)
    (hcont : ∀ rc, st.rootContainer = some rc → ∀ c ∈ ids, c ∉ rc.children) :
    setChildrenOf st l ids = st := by
  rw [setChildrenOf_eq]
  have hlay : st.layers.map (fun p =>
      if p.1 = l then (p.1, { p.2 with children := childrenResult ids })
      else (p.1, { p.2 with children := p.2.children.filter (fun x => decide (x ∉ ids)) })) =
      st.layers := by
    apply map_congr_id
    intro p hp
    by_cases h : p.1 = l
    · simp only [h, if_pos, ite_true]
      rw [node_set_children_self p.2 _ (hself p hp h), ← h]
    · simp only [h, if_neg, ite_false]
      have hf : p.2.children.filter (fun x => decide (x ∉ ids)) = p.2.children := by
        apply List.filter_eq_self.mpr
        intro a ha
        have : a ∉ ids := fun hmem => hothers p hp h a hmem ha
        simp [this]
      rw [hf]
  have hcon : st.rootContainer.map (fun rc =>
      { rc with children := rc.children.filter (fun x => decide (x ∉ ids)) }) =
      st.rootContainer := by
    cases hc : st.rootContainer with
    | none => rfl
    | some rc =>
      simp only [Option.map_some']
      have hf : rc.children.filter (fun x => decide (x ∉ ids)) = rc.children := by
        apply List.filter_eq_self.mpr
        intro a ha
        have : a ∉ ids := fun hmem => hcont rc hc a hmem ha
        simp [this]
      rw [hf]
  rw [hlay, hcon]

theorem applyAnimationsTo_nil (st : ProxyState) (id : Nat) :
    applyAnimationsTo st id [] = st := by
  unfold applyAnimationsTo
  apply updateNode_congr_id
  intro p _ _
  rfl

theorem rootID_setRootLayerID (s : ProxyState) (id : Nat) :
    (setRootLayerID s id).rootLayerID = id := by
  unfold setRootLayerID
  split
  · rename_i h
    exact h.symm
  · split
    · rfl
    · dsimp only
      split
      · rfl
      · split <;> rfl

theorem childFoldAux_mem (ids : List Nat) :
    ∀ (cur : List Nat) (x : Nat),
      x ∈ ids.foldl (fun acc c => acc.filter (fun y => y ≠ c) ++ [c]) cur →
      x ∈ cur ∨ x ∈ ids := by
  induction ids with
  | nil => intro cur x h; exact Or.inl h
  | cons c rest ih =>
    intro cur x h
    rw [List.foldl_cons] at h
    rcases ih _ x h with h1 | h2
    · rcases List.mem_append.mp h1 with h3 | h4
      · exact Or.inl (List.mem_of_mem_filter h3)
      · right
        rw [List.mem_singleton.mp h4]
        exact List.mem_cons_self c rest
    · exact Or.inr (List.mem_cons_of_mem c h2)

theorem childrenResult_mem {ids : List Nat} {x : Nat} (h : x ∈ childrenResult ids) : x ∈ ids := by
  rcases childFoldAux_mem ids [] x h with h1 | h2
  · exact absurd h1 (List.not_mem_nil x)
  · exact h2

theorem graphicsLayerNode_ext (n m : GraphicsLayerNode)
    (h1 : n.name = m.name) (h2 : n.replica = m.replica) (h3 : n.mask = m.mask)
    (h4 : n.pos = m.pos) (h5 : n.size = m.size) (h6 : n.transform = m.transform)
    (h7 : n.anchorPoint = m.anchorPoint) (h8 : n.childrenTransform = m.childrenTransform)
    (h9 : n.backfaceVisible = m.backfaceVisible) (h10 : n.contentsOpaque = m.contentsOpaque)
    (h11 : n.contentsRect = m.contentsRect) (h12 : n.drawsContent = m.drawsContent)
    (h13 : n.masksToBounds = m.masksToBounds) (h14 : n.opacity = m.opacity)
    (h15 : n.preserves3D = m.preserves3D) (h16 : n.children = m.children)
    (h17 : n.contentsMedia = m.contentsMedia) (h18 : n.backingStore = m.backingStore)
    (h19 : n.animations = m.animations) : n = m := by
  cases n
  cases m
  simp_all

theorem scalarFields_chUpdate {info : WebLayerInfo} {n : GraphicsLayerNode}
    (h : SyncScalarFields info n) (L : List Nat) :
    SyncScalarFields info { n with children := L } :=
  ⟨h.hname, h.hreplica, h.hmask, h.hpos, h.hsize, h.htransform, h.hanchor, h.hct,
   h.hbv, h.hco, h.hcr, h.hdc, h.hmtb, h.hop, h.hp3⟩

theorem scalarFields_storeUpdate {info : WebLayerInfo} {n : GraphicsLayerNode}
    (h : SyncScalarFields info n) (st : Option LayerBackingStore) :
    SyncScalarFields info { n with backingStore := st } :=
  ⟨h.hname, h.hreplica, h.hmask, h.hpos, h.hsize, h.htransform, h.hanchor, h.hct,
   h.hbv, h.hco, h.hcr, h.hdc, h.hmtb, h.hop, h.hp3⟩

theorem entryInv_updateNode (K : Nat → GraphicsLayerNode → Prop) (s : ProxyState) (id : Nat)
    (f : GraphicsLayerNode → GraphicsLayerNode)
    (h : ∀ p ∈ s.layers, K p.1 p.2) (hf : ∀ n, K id n → K id (f n)) :
    ∀ p ∈ (updateNode s id f).layers, K p.1 p.2 := by
  intro p hp
  unfold updateNode at hp
  rcases List.mem_map.mp hp with ⟨q, hq, hpq⟩
  by_cases hql : q.1 = id
  · rw [← hpq]
    simp only [hql, if_pos, ite_true]
    show K id (f q.2)
    apply hf
    rw [← hql]
    exact h q hq
  · rw [← hpq]
    simp only [hql, if_neg, ite_false]
    exact h q hq

theorem entryPost_updateNode (R : GraphicsLayerNode → Prop) (s : ProxyState) (id : Nat)
    (f : GraphicsLayerNode → GraphicsLayerNode) (hR : ∀ n, R (f n)) :
    ∀ p ∈ (updateNode s id f).layers, p.1 = id → R p.2 := by
  intro p hp hpk
  unfold updateNode at hp
  rcases List.mem_map.mp hp with ⟨q, hq, hpq⟩
  by_cases hql : q.1 = id
  · rw [← hpq]
    simp only [hql, if_pos, ite_true]
    exact hR q.2
  · rw [← hpq] at hpk
    simp only [hql, if_neg, ite_false] at hpk

theorem entryInv_detachAll (K : Nat → GraphicsLayerNode → Prop) (s : ProxyState) (c : Nat)
    (h : ∀ p ∈ s.layers, K p.1 p.2)
    (hdet : ∀ k n, K k n → K k { n with children := n.children.filter (fun x => x ≠ c) }) :
    ∀ p ∈ (detachAll s c).layers, K p.1 p.2 := by
  intro p hp
  unfold detachAll at hp
  rcases List.mem_map.mp hp with ⟨q, hq, hpq⟩
  rw [← hpq]
  exact hdet q.1 q.2 (h q hq)

theorem entryInv_layersAdd (K : Nat → GraphicsLayerNode → Prop) (s : ProxyState) (id : Nat)
    (n : GraphicsLayerNode) (h : ∀ p ∈ s.layers, K p.1 p.2) (hnew : K id n) :
    ∀ p ∈ (layersAdd s id n).layers, K p.1 p.2 := by
  unfold layersAdd
  split
  · exact h
  · intro p hp
    rcases List.mem_append.mp hp with h1 | h2
    · exact h p h1
    · rw [List.mem_singleton.mp h2]
      exact hnew

theorem entryInv_materializeChildren (K : Nat → GraphicsLayerNode → Prop) (ids : List Nat) :
    ∀ st : ProxyState, (∀ p ∈ st.layers, K p.1 p.2) →
      (∀ c ∈ ids, K c defaultLayerNode ∨ (layerByID st c).isSome = true) →
      ∀ p ∈ (materializeChildren st ids).layers, K p.1 p.2 := by
  induction ids with
  | nil => intro st h _; exact h
  | cons c rest ih =>
    intro st h hids
    unfold materializeChildren at ih ⊢
    rw [List.foldl_cons]
    by_cases hc : (layerByID st c).isSome
    · simp only [hc, if_true, ite_true]
      exact ih st h (fun d hd => hids d (List.mem_cons_of_mem c hd))
    · simp only [hc, if_false, ite_false, Bool.false_eq_true]
      have hKc : K c defaultLayerNode := by
        rcases hids c (List.mem_cons_self c rest) with h1 | h2
        · exact h1
        · exact absurd h2 hc
      refine ih _ (entryInv_layersAdd K st c defaultLayerNode h hKc) ?_
      intro d hd
      rcases hids d (List.mem_cons_of_mem c hd) with h1 | h2
      · exact Or.inl h1
      · exact Or.inr (pres_layersAdd st c defaultLayerNode d h2)

theorem entryInv_setChildrenOf (K : Nat → GraphicsLayerNode → Prop) (st : ProxyState) (l : Nat)
    (ids : List Nat) (h : ∀ p ∈ st.layers, K p.1 p.2)
    (hl : ∀ n, K l n → K l { n with children := childrenResult ids })
    (ho : ∀ k n, k ≠ l → K k n →
      K k { n with children := n.children.filter (fun x => decide (x ∉ ids)) }) :
    ∀ p ∈ (setChildrenOf st l ids).layers, K p.1 p.2 := by
  rw [setChildrenOf_eq]
  intro p hp
  rcases List.mem_map.mp hp with ⟨q, hq, hpq⟩
  by_cases hql : q.1 = l
  · rw [← hpq]
    simp only [hql, if_pos, ite_true]
    show K l _
    apply hl
    rw [← hql]
    exact h q hq
  · rw [← hpq]
    simp only [hql, if_neg, ite_false]
    exact ho q.1 q.2 hql (h q hq)

theorem entryPost_setChildrenOf (st : ProxyState) (l : Nat) (ids : List Nat) :
    ∀ p ∈ (setChildrenOf st l ids).layers, p.1 = l → p.2.children = childrenResult ids := by
  rw [setChildrenOf_eq]
  intro p hp hpk
  rcases List.mem_map.mp hp with ⟨q, hq, hpq⟩
  by_cases hql : q.1 = l
  · rw [← hpq]
    simp only [hql, if_pos, ite_true]
  · rw [← hpq] at hpk
    simp only [hql, if_neg, ite_false] at hpk

theorem entryInv_setRootLayerID (K : Nat → GraphicsLayerNode → Prop) (s : ProxyState) (id : Nat)
    (h : ∀ p ∈ s.layers, K p.1 p.2)
    (hdet : ∀ k n, K k n → K k { n with children := n.children.filter (fun x => x ≠ id) }) :
    ∀ p ∈ (setRootLayerID s id).layers, K p.1 p.2 := by
  unfold setRootLayerID
  split
  · exact h
  · split
    · exact h
    · dsimp only
      split
      · exact h
      · split
        · exact h
        · exact entryInv_detachAll K _ id h hdet

theorem entryInv_flushLayerChanges (K : Nat → GraphicsLayerNode → Prop) (s : ProxyState)
    (h : ∀ p ∈ s.layers, K p.1 p.2)
    (hsw : ∀ k n, K k n → K k { n with backingStore := n.backingStore.map swapStore }) :
    ∀ p ∈ (flushLayerChanges s).layers, K p.1 p.2 := by
  intro p hp
  have hp2 : p ∈ s.layers.map (fun p =>
      if p.1 ∈ s.pendingBuffers then
        (p.1, { p.2 with backingStore := p.2.backingStore.map swapStore }) else p) := hp
  rcases List.mem_map.mp hp2 with ⟨q, hq, hpq⟩
  by_cases hqp : q.1 ∈ s.pendingBuffers
  · rw [← hpq]
    simp only [hqp, if_pos, ite_true]
    exact hsw q.1 q.2 (h q hq)
  · rw [← hpq]
    simp only [hqp, if_neg, ite_false]
    exact h q hq

theorem pb_flushLayerChanges (x : ProxyState) : (flushLayerChanges x).pendingBuffers = [] := rfl

theorem rootID_flushLayerChanges (x : ProxyState) :
    (flushLayerChanges x).rootLayerID = x.rootLayerID := rfl

theorem rc_flushLayerChanges (x : ProxyState) :
    (flushLayerChanges x).rootContainer = x.rootContainer := rfl

theorem pres_flushLayerChanges (x : ProxyState) (k : Nat) :
    (layerByID (flushLayerChanges x) k).isSome = (layerByID x k).isSome := by
  show (layerByID (swapBuffers x) k).isSome = (layerByID x k).isSome
  exact pres_swapBuffers x k

theorem ensureRootLayer_of_some (s : ProxyState) (h : s.rootContainer.isSome = true) :
    ensureRootLayer s = s := by
  unfold ensureRootLayer
  split
  · rfl
  · rename_i heq
    rw [heq] at h
    simp at h

theorem rc_isSome_ensureRootLayer (s : ProxyState) :
    (ensureRootLayer s).rootContainer.isSome = true := by
  unfold ensureRootLayer
  split
  · rename_i x heq
    rw [heq]
    rfl
  · rfl

theorem rc_isSome_setRootLayerID (s : ProxyState) (id : Nat)
    (h : s.rootContainer.isSome = true) :
    (setRootLayerID s id).rootContainer.isSome = true := by
  unfold setRootLayerID
  split
  · exact h
  · split
    · rename_i heq
      rw [heq] at h
      simp at h
    · dsimp only
      split
      · rfl
      · split <;> rfl

theorem rc_isSome_rootReassign (st : ProxyState) (info : WebLayerInfo)
    (h : st.rootContainer.isSome = true) :
    (rootReassign st info).rootContainer.isSome = true := by
  unfold rootReassign
  split
  · exact rc_isSome_setRootLayerID st info.id h
  · exact h

theorem rc_isSome_syncLayerParameters (s : ProxyState) (info : WebLayerInfo)
    (h : s.rootContainer.isSome = true) :
    (syncLayerParameters s info).rootContainer.isSome = true := by
  have h1 : (ensureLayer s info.id).rootContainer.isSome = true := by
    rw [(ensureLayer_scalars s info.id).2.1]
    exact h
  unfold syncLayerParameters
  dsimp only
  split
  · exact h1
  · unfold syncStages
    apply rc_isSome_rootReassign
    rw [rc_applyAnimationsTo, rc_setChildrenOf_isSome, rc_materializeChildren,
      rc_syncFlagsUpdate, rc_imageStage]
    exact h1

theorem rc_isSome_withBackingStore (s : ProxyState) (lid : Nat)
    (f : LayerBackingStore → LayerBackingStore) (h : s.rootContainer.isSome = true) :
    (withBackingStore s lid f).rootContainer.isSome = true := by
  have h1 : (ensureLayer s lid).rootContainer.isSome = true := by
    rw [(ensureLayer_scalars s lid).2.1]
    exact h
  unfold withBackingStore
  dsimp only
  split
  · exact h1
  · exact h1

theorem rc_isSome_updateTile (s : ProxyState) (lid : Nat) (tid a b c : Int)
    (h : s.rootContainer.isSome = true) :
    (updateTile s lid tid a b c).rootContainer.isSome = true := by
  have h1 : (ensureLayer s lid).rootContainer.isSome = true := by
    rw [(ensureLayer_scalars s lid).2.1]
    exact h
  unfold updateTile
  dsimp only
  split
  · exact h1
  · exact h1

theorem rc_isSome_applyMessage (s : ProxyState) (m : Msg)
    (h : s.rootContainer.isSome = true) :
    (applyMessage s m).rootContainer.isSome = true := by
  cases m with
  | DeleteLayer lid =>
    show (deleteLayer s lid).rootContainer.isSome = true
    unfold deleteLayer
    split
    · exact h
    · dsimp only
      show ((detachAll s lid).rootContainer).isSome = true
      rw [rc_detachAll_isSome]
      exact h
  | CreateTile lid tid scale => exact rc_isSome_withBackingStore s lid _ h
  | RemoveTile lid tid => exact rc_isSome_withBackingStore s lid _ h
  | UpdateTile lid tid a b c => exact rc_isSome_updateTile s lid tid a b c h
  | CreateImage i b =>
    show (createImage s i b).rootContainer.isSome = true
    unfold createImage
    split
    · exact h
    · exact h
  | DestroyImage i => exact h
  | SyncLayerParameters info => exact rc_isSome_syncLayerParameters s info h
  | FlushLayerChanges =>
    show (flushLayerChanges s).rootContainer.isSome = true
    rw [rc_flushLayerChanges]
    exact h
  | SetRootLayer lid => exact rc_isSome_setRootLayerID s lid h

theorem applyBatch_eq (s : ProxyState) (m : Msg) :
    applyBatch s m = flushLayerChanges (applyMessage (ensureRootLayer s) m) := rfl

theorem rc_isSome_applyBatch (s : ProxyState) (m : Msg) :
    (applyBatch s m).rootContainer.isSome = true := by
  rw [applyBatch_eq, rc_flushLayerChanges]
  exact rc_isSome_applyMessage _ m (rc_isSome_ensureRootLayer s)

theorem layerByID_deleteLayer_self (s : ProxyState) (lid : Nat) :
    layerByID (deleteLayer s lid) lid = none := by
  unfold deleteLayer
  cases hc : layerByID s lid with
  | none => exact hc
  | some n =>
    dsimp only
    show layersFind ((detachAll s lid).layers.filter (fun p => p.1 ≠ lid)) lid = none
    by_cases h0 : lid = 0
    · simp [layersFind, h0]
    · rw [layersFind_eq_entryFor]
      simp only [h0, if_neg, ite_false]
      rw [entryFor_filter_self]
      rfl

theorem materializeChildren_id (ids : List Nat) :
    ∀ st : ProxyState, (∀ c ∈ ids, c ≠ 0 → (layerByID st c).isSome = true) →
      materializeChildren st ids = st := by
  induction ids with
  | nil => intro st _; rfl
  | cons c rest ih =>
    intro st h
    unfold materializeChildren at ih ⊢
    rw [List.foldl_cons]
    by_cases hc : (layerByID st c).isSome
    · simp only [hc, if_true, ite_true]
      exact ih st (fun d hd => h d (List.mem_cons_of_mem c hd))
    · have hc0 : c = 0 := by
        by_contra hne
        exact hc (h c (List.mem_cons_self c rest) hne)
      simp only [hc, if_false, ite_false, Bool.false_eq_true]
      rw [hc0, layersAdd_zero]
      exact ih st (fun d hd => h d (List.mem_cons_of_mem c hd))

theorem find_append_right {α : Type} (l : List α) (p : α → Bool) (e : α)
    (h : l.find? p = none) : (l ++ [e]).find? p = if p e then some e else none := by
  induction l with
  | nil =>
    by_cases hpe : p e = true
    · show ([e].find? p) = _
      rw [List.find?_cons_of_pos _ hpe, if_pos hpe]
    · show ([e].find? p) = _
      rw [List.find?_cons_of_neg _ (by simp [hpe]), if_neg (by simp [hpe])]
      rfl
  | cons a t ih =>
    have ha : ¬ (p a = true) := by
      intro hp
      rw [List.find?_cons_of_pos _ hp] at h
      cases h
    rw [List.cons_append, List.find?_cons_of_neg _ (by simp [ha])]
    rw [List.find?_cons_of_neg _ (by simp [ha])] at h
    exact ih h

theorem storeCreateTile_present (tid scale : Int) (st : LayerBackingStore) :
    ((storeCreateTile tid scale st).tiles.find? (fun p => p.1 = tid)).isSome = true := by
  unfold storeCreateTile
  split
  · rename_i h
    exact h
  · rename_i h
    have hnone : st.tiles.find? (fun p => p.1 = tid) = none := by
      cases hf : st.tiles.find? (fun p => p.1 = tid) with
      | none => rfl
      | some q => rw [hf] at h; simp at h
    show (((st.tiles ++ [(tid, ({ scale := scale, visible := none, pending := none } : TileState))]).find?
        (fun p => p.1 = tid))).isSome = true
    rw [find_append_right _ _ _ hnone]
    simp

theorem storeCreateTile_of_present (tid scale : Int) (st : LayerBackingStore)
    (h : (st.tiles.find? (fun p => p.1 = tid)).isSome = true) :
    storeCreateTile tid scale st = st := by
  unfold storeCreateTile
  rw [if_pos h]

theorem find_isSome_map_keyfix {α β : Type} (l : List (Int × α)) (g : Int × α → Int × β)
    (hg : ∀ p, (g p).1 = p.1) (tid : Int) :
    ((l.map g).find? (fun p => p.1 = tid)).isSome = (l.find? (fun p => p.1 = tid)).isSome := by
  induction l with
  | nil => rfl
  | cons p t ih =>
    by_cases h : p.1 = tid
    · rw [List.map_cons, List.find?_cons_of_pos _ (by simp [hg, h]),
        List.find?_cons_of_pos _ (by simp [h])]
      rfl
    · rw [List.map_cons, List.find?_cons_of_neg _ (by simp [hg, h]),
        List.find?_cons_of_neg _ (by simp [h])]
      exact ih

theorem tilesPresent_swapStore (st : LayerBackingStore) (tid : Int) :
    ((swapStore st).tiles.find? (fun p => p.1 = tid)).isSome =
      (st.tiles.find? (fun p => p.1 = tid)).isSome := by
  show ((st.tiles.map (fun p => (p.1, swapTile p.2))).find? (fun p => p.1 = tid)).isSome = _
  exact find_isSome_map_keyfix st.tiles (fun p => (p.1, swapTile p.2)) (fun p => rfl) tid

theorem storeRemoveTile_absent (tid : Int) (st : LayerBackingStore) :
    (((storeRemoveTile tid st).tiles.find? (fun p => p.1 = tid))).isSome = false := by
  have hnone : (st.tiles.filter (fun p => p.1 ≠ tid)).find? (fun p => p.1 = tid) = none := by
    rw [List.find?_eq_none]
    intro p hp
    have := (List.mem_filter.mp hp).2
    simpa using this
  show ((st.tiles.filter (fun p => p.1 ≠ tid)).find? (fun p => p.1 = tid)).isSome = false
  rw [hnone]
  rfl

theorem storeRemoveTile_of_absent (tid : Int) (st : LayerBackingStore)
    (h : ((st.tiles.find? (fun p => p.1 = tid))).isSome = false) :
    storeRemoveTile tid st = st := by
  have hall : ∀ p ∈ st.tiles, ¬ (p.1 = tid) := by
    intro p hp hptid
    cases hf : st.tiles.find? (fun p => p.1 = tid) with
    | none =>
      have := List.find?_eq_none.mp hf p hp
      simp [hptid] at this
    | some q => rw [hf] at h; simp at h
  unfold storeRemoveTile
  have hfe : st.tiles.filter (fun p => p.1 ≠ tid) = st.tiles := by
    apply List.filter_eq_self.mpr
    intro a ha
    simp [hall a ha]
  rw [hfe]

theorem swapTile_swapTile (t : TileState) : swapTile (swapTile t) = swapTile t := by
  obtain ⟨sc, vis, pen⟩ := t
  cases pen <;> rfl

theorem swapTile_update_swap (t : TileState) (v : Int × Int × Int) :
    swapTile { swapTile { t with pending := some v } with pending := some v } =
      swapTile { t with pending := some v } := by
  obtain ⟨sc, vis, pen⟩ := t
  rfl

theorem tileStep_idem (tid a b c : Int) (p : Int × TileState) :
    ((fun q : Int × TileState => (q.1, swapTile q.2))
      ((fun q : Int × TileState =>
        if q.1 = tid then (q.1, { q.2 with pending := some (a, b, c) }) else q)
        ((fun q : Int × TileState => (q.1, swapTile q.2))
          ((fun q : Int × TileState =>
            if q.1 = tid then (q.1, { q.2 with pending := some (a, b, c) }) else q) p)))) =
    ((fun q : Int × TileState => (q.1, swapTile q.2))
      ((fun q : Int × TileState =>
        if q.1 = tid then (q.1, { q.2 with pending := some (a, b, c) }) else q) p)) := by
  by_cases h : p.1 = tid
  · simp [h, swapTile_update_swap]
  · simp [h, swapTile_swapTile]

theorem swapStore_update_idem (tid a b c : Int) (st : LayerBackingStore) :
    swapStore (storeUpdateTile tid a b c (swapStore (storeUpdateTile tid a b c st))) =
      swapStore (storeUpdateTile tid a b c st) := by
  have key : ∀ p ∈ (swapStore (storeUpdateTile tid a b c st)).tiles,
      ((fun q : Int × TileState => (q.1, swapTile q.2)) ∘
        (fun q : Int × TileState =>
          if q.1 = tid then (q.1, { q.2 with pending := some (a, b, c) }) else q)) p = p := by
    intro p hp
    have hp2 : p ∈ (st.tiles.map (fun q =>
        if q.1 = tid then (q.1, { q.2 with pending := some (a, b, c) }) else q)).map
        (fun q => (q.1, swapTile q.2)) := hp
    rcases List.mem_map.mp hp2 with ⟨y, hy, hyp⟩
    rcases List.mem_map.mp hy with ⟨x, hx, hxy⟩
    show (fun q : Int × TileState => (q.1, swapTile q.2))
        ((fun q : Int × TileState =>
          if q.1 = tid then (q.1, { q.2 with pending := some (a, b, c) }) else q) p) = p
    rw [← hyp, ← hxy]
    exact tileStep_idem tid a b c x
  show LayerBackingStore.mk
      (((swapStore (storeUpdateTile tid a b c st)).tiles.map
        (fun q : Int × TileState =>
          if q.1 = tid then (q.1, { q.2 with pending := some (a, b, c) }) else q)).map
        (fun q : Int × TileState => (q.1, swapTile q.2))) =
      swapStore (storeUpdateTile tid a b c st)
  rw [List.map_map]
  rw [map_congr_id _ _ key]

theorem layerByID_mem (s : ProxyState) (k : Nat) (n : GraphicsLayerNode)
    (h : layerByID s k = some n) : ∃ p ∈ s.layers, p.1 = k ∧ p.2 = n := by
  unfold layerByID layersFind at h
  by_cases h0 : k = 0
  · rw [if_pos h0] at h
    cases h
  · rw [if_neg h0] at h
    cases hf : s.layers.find? (fun p => p.1 = k) with
    | none => rw [hf] at h; cases h
    | some p =>
      rw [hf, Option.map_some'] at h
      refine ⟨p, List.mem_of_find?_eq_some hf, ?_, ?_⟩
      · have := List.find?_some hf
        simpa using this
      · injection h

theorem entryPost_flush_store (x : ProxyState) (lid : Nat) (c : LayerBackingStore)
    (h : ∀ p ∈ x.layers, p.1 = lid → p.2.backingStore = some c) :
    ∀ p ∈ (flushLayerChanges x).layers, p.1 = lid →
      p.2.backingStore = some (if lid ∈ x.pendingBuffers then swapStore c else c) := by
  intro p hp hpk
  have hp2 : p ∈ x.layers.map (fun q =>
      if q.1 ∈ x.pendingBuffers then
        (q.1, { q.2 with backingStore := q.2.backingStore.map swapStore }) else q) := hp
  rcases List.mem_map.mp hp2 with ⟨q, hq, hqp⟩
  by_cases hqpb : q.1 ∈ x.pendingBuffers
  · rw [← hqp] at hpk ⊢
    simp only [hqpb, if_pos, ite_true] at hpk ⊢
    rw [h q hq hpk, if_pos (hpk ▸ hqpb)]
    rfl
  · rw [← hqp] at hpk ⊢
    simp only [hqpb, if_neg, ite_false] at hpk ⊢
    rw [h q hq hpk, if_neg (hpk ▸ hqpb)]

theorem scene_markCrashed (x : ProxyState) : sceneGraphOf (markCrashed x) = sceneGraphOf x := rfl

theorem pb_markCrashed (x : ProxyState) : (markCrashed x).pendingBuffers = x.pendingBuffers := rfl

theorem entryPost_setChildrenOf_others (st : ProxyState) (l : Nat) (ids : List Nat) :
    ∀ p ∈ (setChildrenOf st l ids).layers, p.1 ≠ l → ∀ c ∈ ids, c ∉ p.2.children := by
  rw [setChildrenOf_eq]
  intro p hp hpk c hc hmem
  rcases List.mem_map.mp hp with ⟨q, hq, hqp⟩
  by_cases hql : q.1 = l
  · rw [← hqp] at hpk
    simp only [hql, if_pos, ite_true] at hpk
    exact hpk rfl
  · rw [← hqp] at hmem
    simp only [hql, if_neg, ite_false] at hmem
    have := (List.mem_filter.mp hmem).2
    simp at this
    exact this hc

theorem rcChildren_setChildrenOf (st : ProxyState) (l : Nat) (ids : List Nat) :
    ∀ rc, (setChildrenOf st l ids).rootContainer = some rc → ∀ c ∈ ids, c ∉ rc.children := by
  rw [setChildrenOf_eq]
  intro rc hrc c hc hmem
  have hrc2 : st.rootContainer.map (fun rc =>
      { rc with children := rc.children.filter (fun x => decide (x ∉ ids)) }) = some rc := hrc
  cases hsc : st.rootContainer with
  | none => rw [hsc] at hrc2; cases hrc2
  | some rc0 =>
    rw [hsc, Option.map_some'] at hrc2
    injection hrc2 with h2
    rw [← h2] at hmem
    have := (List.mem_filter.mp hmem).2
    simp at this
    exact this hc

theorem rc_setRootLayerID_cases (s : ProxyState) (lid : Nat) :
    (setRootLayerID s lid).rootContainer = s.rootContainer ∨
    (∃ rc, (setRootLayerID s lid).rootContainer = some rc ∧
      (rc.children = [] ∨ rc.children = [lid])) := by
  unfold setRootLayerID
  split
  · exact Or.inl rfl
  · split
    · exact Or.inl rfl
    · dsimp only
      split
      · rename_i rc heq h0
        exact Or.inr ⟨_, rfl, Or.inl rfl⟩
      · split
        · exact Or.inr ⟨_, rfl, Or.inl rfl⟩
        · exact Or.inr ⟨_, rfl, Or.inr rfl⟩

theorem pb_applyBatch (s : ProxyState) (m : Msg) : (applyBatch s m).pendingBuffers = [] := rfl

theorem mem_pendingAdd (l : List Nat) (id : Nat) : id ∈ pendingAdd l id := by
  unfold pendingAdd
  split
  · assumption
  · exact List.mem_append.mpr (Or.inr (List.mem_singleton.mpr rfl))

theorem ensureLayer_zero (x : ProxyState) : ensureLayer x 0 = x :=
  layersAdd_zero x defaultLayerNode

theorem withBackingStore_zero (x : ProxyState) (f : LayerBackingStore → LayerBackingStore) :
    withBackingStore x 0 f = markCrashed x := by
  unfold withBackingStore
  dsimp only
  rw [ensureLayer_zero, show layerByID x 0 = none from layerByID_zero x]

theorem updateTile_zero (x : ProxyState) (tid a b c : Int) :
    updateTile x 0 tid a b c = markCrashed x := by
  unfold updateTile
  dsimp only
  rw [ensureLayer_zero, show layerByID x 0 = none from layerByID_zero x]

theorem setRootLayerID_same (x : ProxyState) (lid : Nat) (h : x.rootLayerID = lid) :
    setRootLayerID x lid = x := by
  unfold setRootLayerID
  rw [if_pos h.symm]

theorem deleteLayer_of_absent (x : ProxyState) (lid : Nat) (h : layerByID x lid = none) :
    deleteLayer x lid = x := by
  unfold deleteLayer
  rw [h]

theorem scene_createImage (s : ProxyState) (i b : Int) :
    sceneGraphOf (createImage s i b) = sceneGraphOf s := by
  unfold createImage
  split <;> rfl

theorem pb_createImage (s : ProxyState) (i b : Int) :
    (createImage s i b).pendingBuffers = s.pendingBuffers := by
  unfold createImage
  split <;> rfl

theorem withBackingStore_cases (x : ProxyState) (lid : Nat) (hl0 : lid ≠ 0)
    (f : LayerBackingStore → LayerBackingStore) :
    ∃ base : LayerBackingStore,
      withBackingStore x lid f =
        updateNode (ensureLayer x lid) lid
          (fun m => { m with backingStore := some (f base) }) := by
  unfold withBackingStore
  dsimp only
  cases hn : layerByID (ensureLayer x lid) lid with
  | none =>
    exfalso
    have := layerByID_ensureLayer_self x lid hl0
    rw [hn] at this
    simp at this
  | some n => exact ⟨n.backingStore.getD { tiles := [] }, rfl⟩

theorem updateTile_cases (x : ProxyState) (lid : Nat) (hl0 : lid ≠ 0) (tid a b c : Int) :
    ∃ base : LayerBackingStore,
      updateTile x lid tid a b c =
        { updateNode (ensureLayer x lid) lid
            (fun m => { m with backingStore := some (storeUpdateTile tid a b c base) }) with
          pendingBuffers := pendingAdd (ensureLayer x lid).pendingBuffers lid } := by
  unfold updateTile
  dsimp only
  cases hn : layerByID (ensureLayer x lid) lid with
  | none =>
    exfalso
    have := layerByID_ensureLayer_self x lid hl0
    rw [hn] at this
    simp at this
  | some n => exact ⟨n.backingStore.getD { tiles := [] }, rfl⟩

theorem withBackingStore_congr_id (x : ProxyState) (lid : Nat)
    (f : LayerBackingStore → LayerBackingStore) (stC : LayerBackingStore)
    (hinv : ∀ p ∈ x.layers, p.1 = lid → p.2.backingStore = some stC)
    (hpres : (layerByID x lid).isSome = true)
    (hf : f stC = stC) :
    withBackingStore x lid f = x := by
  unfold withBackingStore
  dsimp only
  rw [ensureLayer_of_present (by rw [hpres])]
  cases hn : layerByID x lid with
  | none => rw [hn] at hpres; simp at hpres
  | some n =>
    rcases layerByID_mem x lid n hn with ⟨p, hp, hpk, hpv⟩
    have hnst : n.backingStore = some stC := by
      rw [← hpv]
      exact hinv p hp hpk
    apply updateNode_congr_id
    intro q hq hqk
    show { q.2 with backingStore := some (f (n.backingStore.getD { tiles := [] })) } = q.2
    rw [hnst]
    show { q.2 with backingStore := some (f stC) } = q.2
    rw [hf]
    exact node_set_store_self q.2 _ (hinv q hq hqk)

theorem withBackingStore_batch_idem (s : ProxyState) (lid : Nat)
    (f : LayerBackingStore → LayerBackingStore) (P : LayerBackingStore → Prop)
    (hPf : ∀ base, P (f base)) (hPswap : ∀ c, P c → P (swapStore c))
    (hPfix : ∀ c, P c → f c = c) :
    sceneGraphOf (flushLayerChanges (withBackingStore
        (flushLayerChanges (withBackingStore (ensureRootLayer s) lid f)) lid f)) =
      sceneGraphOf (flushLayerChanges (withBackingStore (ensureRootLayer s) lid f)) := by
  by_cases hl0 : lid = 0
  · subst hl0
    rw [withBackingStore_zero, scene_flushLayerChanges_of_empty _ rfl]
    exact scene_markCrashed _
  · obtain ⟨base, hW⟩ := withBackingStore_cases (ensureRootLayer s) lid hl0 f
    have hinv0 : ∀ p ∈ (withBackingStore (ensureRootLayer s) lid f).layers,
        p.1 = lid → p.2.backingStore = some (f base) := by
      rw [hW]
      exact entryPost_updateNode (fun n => n.backingStore = some (f base)) _ lid _
        (fun n => rfl)
    have hinv := entryPost_flush_store (withBackingStore (ensureRootLayer s) lid f)
      lid (f base) hinv0
    have hPstC : P (if lid ∈ (withBackingStore (ensureRootLayer s) lid f).pendingBuffers then
        swapStore (f base) else f base) := by
      by_cases hpb : lid ∈ (withBackingStore (ensureRootLayer s) lid f).pendingBuffers
      · rw [if_pos hpb]
        exact hPswap _ (hPf base)
      · rw [if_neg hpb]
        exact hPf base
    have hpres : (layerByID (flushLayerChanges (withBackingStore (ensureRootLayer s) lid f))
        lid).isSome = true := by
      rw [pres_flushLayerChanges, hW, pres_updateNode]
      have := layerByID_ensureLayer_self (ensureRootLayer s) lid hl0
      rw [this]
    have hsecond : withBackingStore
        (flushLayerChanges (withBackingStore (ensureRootLayer s) lid f)) lid f =
        flushLayerChanges (withBackingStore (ensureRootLayer s) lid f) :=
      withBackingStore_congr_id _ lid f _ hinv hpres (hPfix _ hPstC)
    rw [hsecond, scene_flushLayerChanges_of_empty _ rfl]

theorem flushUpdate_step (lid : Nat) (dU dS : LayerBackingStore)
    (hsw : swapStore dU = dS) (p : Nat × GraphicsLayerNode)
    (hst : p.1 = lid → p.2.backingStore = some dS) :
    ((fun q : Nat × GraphicsLayerNode =>
        if q.1 ∈ [lid] then (q.1, { q.2 with backingStore := q.2.backingStore.map swapStore })
        else q) ∘
      (fun q : Nat × GraphicsLayerNode =>
        if q.1 = lid then (q.1, { q.2 with backingStore := some dU }) else q)) p = p := by
  by_cases hpk : p.1 = lid
  · have hstore := hst hpk
    simp only [Function.comp_apply, hpk, ite_true, eq_self_iff_true, if_true,
      List.mem_singleton, Option.map_some']
    rw [hsw, node_set_store_self p.2 _ hstore, ← hpk]
  · simp only [Function.comp_apply]
    rw [if_neg hpk, if_neg (show ¬ (p.1 ∈ [lid]) from by simp [hpk])]

theorem updateTile_batch_idem (s : ProxyState) (lid : Nat) (tid a b c : Int) :
    sceneGraphOf (flushLayerChanges (updateTile
        (flushLayerChanges (updateTile (ensureRootLayer s) lid tid a b c)) lid tid a b c)) =
      sceneGraphOf (flushLayerChanges (updateTile (ensureRootLayer s) lid tid a b c)) := by
  by_cases hl0 : lid = 0
  · subst hl0
    rw [updateTile_zero, scene_flushLayerChanges_of_empty _ rfl]
    exact scene_markCrashed _
  · obtain ⟨base0, hW⟩ := updateTile_cases (ensureRootLayer s) lid hl0 tid a b c
    set W := updateTile (ensureRootLayer s) lid tid a b c with hWdef
    set S1 := flushLayerChanges W with hS1def
    have hinv0 : ∀ p ∈ W.layers, p.1 = lid →
        p.2.backingStore = some (storeUpdateTile tid a b c base0) := by
      rw [hW]
      exact entryPost_updateNode
        (fun n => n.backingStore = some (storeUpdateTile tid a b c base0))
        (ensureLayer (ensureRootLayer s) lid) lid
        (fun m => { m with backingStore := some (storeUpdateTile tid a b c base0) })
        (fun n => rfl)
    have hmem : lid ∈ W.pendingBuffers := by
      rw [hW]
      exact mem_pendingAdd _ lid
    have hinv1 := entryPost_flush_store W lid (storeUpdateTile tid a b c base0) hinv0
    have hinv : ∀ p ∈ S1.layers, p.1 = lid →
        p.2.backingStore = some (swapStore (storeUpdateTile tid a b c base0)) := by
      intro p hp hpk
      have h2 := hinv1 p hp hpk
      rwa [if_pos hmem] at h2
    have hpres : (layerByID S1 lid).isSome = true := by
      rw [hS1def, pres_flushLayerChanges, hW]
      show (layerByID (updateNode (ensureLayer (ensureRootLayer s) lid) lid (fun m => { m with backingStore := some (storeUpdateTile tid a b c base0) })) lid).isSome = true
      rw [pres_updateNode]
      have := layerByID_ensureLayer_self (ensureRootLayer s) lid hl0
      rw [this]
    cases hnF : layerByID S1 lid with
    | none =>
      rw [hnF] at hpres
      simp at hpres
    | some nF =>
      rcases layerByID_mem S1 lid nF hnF with ⟨p0, hp0, hp0k, hp0v⟩
      have hnFst : nF.backingStore =
          some (swapStore (storeUpdateTile tid a b c base0)) := by
        rw [← hp0v]
        exact hinv p0 hp0 hp0k
      have hsecond : updateTile S1 lid tid a b c =
          { updateNode S1 lid (fun m => { m with backingStore := some (storeUpdateTile tid a b c (swapStore (storeUpdateTile tid a b c base0))) }) with
            pendingBuffers := pendingAdd S1.pendingBuffers lid } := by
        unfold updateTile
        dsimp only
        rw [ensureLayer_of_present (by rw [hpres]), hnF]
        show ({ updateNode S1 lid (fun m => { m with backingStore := some (storeUpdateTile tid a b c (nF.backingStore.getD { tiles := [] })) }) with
          pendingBuffers := pendingAdd S1.pendingBuffers lid }) = _
        rw [hnFst]
        rfl
      rw [hsecond]
      have hpbS1 : S1.pendingBuffers = [] := by
        rw [hS1def]
        rfl
      have hpA : pendingAdd S1.pendingBuffers lid = [lid] := by
        rw [hpbS1]
        rfl
      apply scene_eq_of_components
      · show ((updateNode S1 lid (fun m => { m with backingStore := some (storeUpdateTile tid a b c (swapStore (storeUpdateTile tid a b c base0))) })).layers.map (fun q => if q.1 ∈ pendingAdd S1.pendingBuffers lid then (q.1, { q.2 with backingStore := q.2.backingStore.map swapStore }) else q)) = S1.layers
        rw [hpA]
        show ((S1.layers.map (fun q : Nat × GraphicsLayerNode => if q.1 = lid then (q.1, { q.2 with backingStore := some (storeUpdateTile tid a b c (swapStore (storeUpdateTile tid a b c base0))) }) else q)).map (fun q : Nat × GraphicsLayerNode => if q.1 ∈ [lid] then (q.1, { q.2 with backingStore := q.2.backingStore.map swapStore }) else q)) = S1.layers
        rw [List.map_map]
        apply map_congr_id
        intro p hp
        exact flushUpdate_step lid _ _ (swapStore_update_idem tid a b c base0) p
          (fun hpk => hinv p hp hpk)
      · rfl
      · rfl

theorem sync_fields_id (x : ProxyState) (info : WebLayerInfo)
    (hrepl : info.replica = 0) (hmask : info.mask = 0)
    (hA : ∀ p ∈ x.layers, p.1 = info.id → SyncScalarFields info p.2) :
    syncFieldsUpdate x info = x := by
  unfold syncFieldsUpdate
  apply updateNode_congr_id
  intro p hp hpk
  have hS := hA p hp hpk
  refine graphicsLayerNode_ext _ _ hS.hname.symm ?_ ?_ hS.hpos.symm hS.hsize.symm
    hS.htransform.symm hS.hanchor.symm hS.hct.symm hS.hbv.symm hS.hco.symm hS.hcr.symm
    hS.hdc.symm rfl rfl rfl rfl rfl rfl rfl
  · show (if (layersFind x.layers info.replica).isSome = true then some info.replica else none) =
      p.2.replica
    rw [hrepl, show layersFind x.layers 0 = none from rfl]
    simp only [Option.isSome_none, Bool.false_eq_true, if_false, ite_false]
    exact hS.hreplica.symm
  · show (if (layersFind x.layers info.mask).isSome = true then some info.mask else none) =
      p.2.mask
    rw [hmask, show layersFind x.layers 0 = none from rfl]
    simp only [Option.isSome_none, Bool.false_eq_true, if_false, ite_false]
    exact hS.hmask.symm

theorem sync_flags_id (x : ProxyState) (info : WebLayerInfo)
    (hA : ∀ p ∈ x.layers, p.1 = info.id → SyncScalarFields info p.2) :
    syncFlagsUpdate x info = x := by
  unfold syncFlagsUpdate
  apply updateNode_congr_id
  intro p hp hpk
  have hS := hA p hp hpk
  exact graphicsLayerNode_ext _ _ rfl rfl rfl rfl rfl rfl rfl rfl rfl rfl rfl rfl
    hS.hmtb.symm hS.hop.symm hS.hp3.symm rfl rfl rfl rfl

theorem rootReassign_id (x : ProxyState) (info : WebLayerInfo)
    (hE : info.isRootLayer = true → x.rootLayerID = info.id) :
    rootReassign x info = x := by
  unfold rootReassign
  cases hr : info.isRootLayer with
  | false => simp
  | true =>
    have hre := hE hr
    rw [hre]
    simp

theorem sync_identity (x : ProxyState) (info : WebLayerInfo)
    (hrepl : info.replica = 0) (hmask : info.mask = 0)
    (hupd : info.imageIsUpdated = false) (himg : info.imageBackingStoreID = 0)
    (hanim : info.animations = [])
    (hinv : syncInv info x) :
    syncLayerParameters x info = x := by
  obtain ⟨hA, hB, hC, hD, hE, hpres, hch⟩ := hinv
  have hens : ensureLayer x info.id = x := ensureLayer_of_present (by rw [hpres])
  unfold syncLayerParameters
  dsimp only
  rw [hens]
  cases hfe : layersFind x.layers info.id with
  | none =>
    exfalso
    unfold layerByID at hpres
    rw [hfe] at hpres
    simp at hpres
  | some layer0 =>
    have hb : (info.imageIsUpdated ||
        (decide (info.contentsRect ≠ layer0.contentsRect) &&
          decide (info.imageBackingStoreID ≠ 0))) = false := by
      rw [hupd, himg]
      simp
    show syncStages x info (info.imageIsUpdated ||
        (decide (info.contentsRect ≠ layer0.contentsRect) &&
          decide (info.imageBackingStoreID ≠ 0))) = x
    rw [hb]
    unfold syncStages
    simp only [Bool.false_eq_true, if_false, ite_false]
    rw [hanim, applyAnimationsTo_nil, sync_fields_id x info hrepl hmask hA,
      sync_flags_id x info hA, materializeChildren_id info.children x hch,
      setChildrenOf_id x info.id info.children hB hC hD, rootReassign_id x info hE]

theorem sync_establishes (u : ProxyState) (info : WebLayerInfo)
    (hid : info.id ≠ 0) (hself : info.id ∉ info.children)
    (hrepl : info.replica = 0) (hmask : info.mask = 0)
    (hupd : info.imageIsUpdated = false) (himg : info.imageBackingStoreID = 0)
    (hanim : info.animations = []) :
    syncInv info (flushLayerChanges (syncLayerParameters u info)) := by
  have hpres1 : (layerByID (ensureLayer u info.id) info.id).isSome :=
    layerByID_ensureLayer_self u info.id hid
  cases hfe : layersFind (ensureLayer u info.id).layers info.id with
  | none =>
    exfalso
    unfold layerByID at hpres1
    rw [hfe] at hpres1
    simp at hpres1
  | some layer0 =>
    have hb : (info.imageIsUpdated ||
        (decide (info.contentsRect ≠ layer0.contentsRect) &&
          decide (info.imageBackingStoreID ≠ 0))) = false := by
      rw [hupd, himg]
      simp
    have hstages : syncLayerParameters u info =
        rootReassign (setChildrenOf (materializeChildren
          (syncFlagsUpdate (syncFieldsUpdate (ensureLayer u info.id) info) info)
          info.children) info.id info.children) info := by
      unfold syncLayerParameters
      dsimp only
      rw [hfe]
      show syncStages (ensureLayer u info.id) info (info.imageIsUpdated ||
          (decide (info.contentsRect ≠ layer0.contentsRect) &&
            decide (info.imageBackingStoreID ≠ 0))) = _
      rw [hb]
      unfold syncStages
      simp only [Bool.false_eq_true, if_false, ite_false]
      rw [hanim, applyAnimationsTo_nil]
    rw [hstages]
    set u1 := ensureLayer u info.id with hu1
    set T4 := syncFlagsUpdate (syncFieldsUpdate u1 info) info with hT4
    set T5 := materializeChildren T4 info.children with hT5
    set T6 := setChildrenOf T5 info.id info.children with hT6
    set T7 := rootReassign T6 info with hT7
    have hR1 : ∀ p ∈ (syncFieldsUpdate u1 info).layers, p.1 = info.id →
        SyncFieldProps info p.2 := by
      unfold syncFieldsUpdate
      apply entryPost_updateNode
      intro n
      refine ⟨rfl, ?_, ?_, rfl, rfl, rfl, rfl, rfl, rfl, rfl, rfl, rfl⟩
      · show (if (layersFind u1.layers info.replica).isSome = true then some info.replica
            else none) = none
        rw [hrepl, show layersFind u1.layers 0 = none from rfl]
        simp
      · show (if (layersFind u1.layers info.mask).isSome = true then some info.mask
            else none) = none
        rw [hmask, show layersFind u1.layers 0 = none from rfl]
        simp
    have hR1b : ∀ p ∈ T4.layers, p.1 = info.id → SyncFieldProps info p.2 := by
      rw [hT4]
      unfold syncFlagsUpdate
      exact entryInv_updateNode (fun k n => k = info.id → SyncFieldProps info n) _ info.id _
        hR1 (fun n h => h)
    have hR3 : ∀ p ∈ T4.layers, p.1 = info.id → SyncFlagProps info p.2 := by
      rw [hT4]
      unfold syncFlagsUpdate
      apply entryPost_updateNode
      intro n
      exact ⟨rfl, rfl, rfl⟩
    have hA4 : ∀ p ∈ T4.layers, p.1 = info.id → SyncScalarFields info p.2 := by
      intro p hp hpk
      obtain ⟨e1, e2, e3, e4, e5, e6, e7, e8, e9, e10, e11, e12⟩ := hR1b p hp hpk
      obtain ⟨f1, f2, f3⟩ := hR3 p hp hpk
      exact ⟨e1, e2, e3, e4, e5, e6, e7, e8, e9, e10, e11, e12, f1, f2, f3⟩
    have hidT4 : (layerByID T4 info.id).isSome = true := by
      rw [hT4, pres_syncFlagsUpdate, pres_syncFieldsUpdate]
      rw [hpres1]
    have hA5 : ∀ p ∈ T5.layers, p.1 = info.id → SyncScalarFields info p.2 := by
      rw [hT5]
      refine entryInv_materializeChildren (fun k n => k = info.id → SyncScalarFields info n)
        info.children T4 hA4 ?_
      intro c hc
      by_cases hcid : c = info.id
      · right
        rw [hcid, hidT4]
      · left
        exact fun h => absurd h hcid
    have hA6 : ∀ p ∈ T6.layers, p.1 = info.id → SyncScalarFields info p.2 := by
      rw [hT6]
      exact entryInv_setChildrenOf (fun k n => k = info.id → SyncScalarFields info n)
        T5 info.id info.children hA5
        (fun n h hk => scalarFields_chUpdate (h hk) _)
        (fun k n hne h hkk => scalarFields_chUpdate (h hkk) _)
    have hA7 : ∀ p ∈ T7.layers, p.1 = info.id → SyncScalarFields info p.2 := by
      rw [hT7]
      unfold rootReassign
      split
      · exact entryInv_setRootLayerID (fun k n => k = info.id → SyncScalarFields info n)
          T6 info.id hA6 (fun k n h hk => scalarFields_chUpdate (h hk) _)
      · exact hA6
    have hAfin : ∀ p ∈ (flushLayerChanges T7).layers, p.1 = info.id →
        SyncScalarFields info p.2 :=
      entryInv_flushLayerChanges (fun k n => k = info.id → SyncScalarFields info n) T7 hA7
        (fun k n h hk => scalarFields_storeUpdate (h hk) _)
    have hfilterid : ∀ L : List Nat, L = childrenResult info.children →
        L.filter (fun x => x ≠ info.id) = childrenResult info.children := by
      intro L hL
      subst hL
      apply List.filter_eq_self.mpr
      intro a ha
      have hmem := childrenResult_mem ha
      have hane : a ≠ info.id := fun he => hself (he ▸ hmem)
      simp [hane]
    have hB6 : ∀ p ∈ T6.layers, p.1 = info.id →
        p.2.children = childrenResult info.children := by
      rw [hT6]
      exact entryPost_setChildrenOf T5 info.id info.children
    have hB7 : ∀ p ∈ T7.layers, p.1 = info.id →
        p.2.children = childrenResult info.children := by
      rw [hT7]
      unfold rootReassign
      split
      · refine entryInv_setRootLayerID
          (fun k n => k = info.id → n.children = childrenResult info.children)
          T6 info.id hB6 ?_
        intro k n h hk
        show n.children.filter (fun x => x ≠ info.id) = childrenResult info.children
        exact hfilterid n.children (h hk)
      · exact hB6
    have hBfin : ∀ p ∈ (flushLayerChanges T7).layers, p.1 = info.id →
        p.2.children = childrenResult info.children :=
      entryInv_flushLayerChanges
        (fun k n => k = info.id → n.children = childrenResult info.children) T7 hB7
        (fun k n h hk => h hk)
    have hC6 : ∀ p ∈ T6.layers, p.1 ≠ info.id → ∀ c ∈ info.children, c ∉ p.2.children := by
      rw [hT6]
      exact entryPost_setChildrenOf_others T5 info.id info.children
    have hC7 : ∀ p ∈ T7.layers, p.1 ≠ info.id → ∀ c ∈ info.children, c ∉ p.2.children := by
      rw [hT7]
      unfold rootReassign
      split
      · refine entryInv_setRootLayerID
          (fun k n => k ≠ info.id → ∀ c ∈ info.children, c ∉ n.children) T6 info.id hC6 ?_
        intro k n h hk c hc hmem
        exact h hk c hc (List.mem_of_mem_filter hmem)
      · exact hC6
    have hCfin : ∀ p ∈ (flushLayerChanges T7).layers, p.1 ≠ info.id →
        ∀ c ∈ info.children, c ∉ p.2.children :=
      entryInv_flushLayerChanges
        (fun k n => k ≠ info.id → ∀ c ∈ info.children, c ∉ n.children) T7 hC7
        (fun k n h => h)
    have hD6 : ∀ rc, T6.rootContainer = some rc → ∀ c ∈ info.children, c ∉ rc.children := by
      rw [hT6]
      exact rcChildren_setChildrenOf T5 info.id info.children
    have hD7 : ∀ rc, T7.rootContainer = some rc → ∀ c ∈ info.children, c ∉ rc.children := by
      rw [hT7]
      unfold rootReassign
      split
      · intro rc hrc c hc hmem
        rcases rc_setRootLayerID_cases T6 info.id with h1 | ⟨rc2, h2, h3⟩
        · rw [h1] at hrc
          exact hD6 rc hrc c hc hmem
        · rw [h2] at hrc
          injection hrc with h4
          subst h4
          rcases h3 with h5 | h5
          · rw [h5] at hmem
            exact (List.not_mem_nil c) hmem
          · rw [h5, List.mem_singleton] at hmem
            rw [hmem] at hc
            exact hself hc
      · exact hD6
    have hDfin : ∀ rc, (flushLayerChanges T7).rootContainer = some rc →
        ∀ c ∈ info.children, c ∉ rc.children := by
      intro rc hrc
      rw [rc_flushLayerChanges] at hrc
      exact hD7 rc hrc
    have hE7 : info.isRootLayer = true → T7.rootLayerID = info.id := by
      intro hr
      rw [hT7]
      unfold rootReassign
      by_cases hre : T6.rootLayerID = info.id
      · have hcond : (info.isRootLayer && decide (T6.rootLayerID ≠ info.id)) = false := by
          rw [hre]
          simp
        simp only [hcond, Bool.false_eq_true, if_false, ite_false]
        exact hre
      · have hcond : (info.isRootLayer && decide (T6.rootLayerID ≠ info.id)) = true := by
          rw [hr]
          simp [hre]
        simp only [hcond, if_true, ite_true]
        exact rootID_setRootLayerID T6 info.id
    have hEfin : info.isRootLayer = true → (flushLayerChanges T7).rootLayerID = info.id := by
      intro hr
      rw [rootID_flushLayerChanges]
      exact hE7 hr
    have hFfin : (layerByID (flushLayerChanges T7) info.id).isSome = true := by
      rw [pres_flushLayerChanges, hT7, pres_rootReassign, hT6, pres_setChildrenOf, hT5]
      exact pres_materializeChildren info.children T4 info.id (by rw [hidT4])
    have hGfin : ∀ c ∈ info.children, c ≠ 0 →
        (layerByID (flushLayerChanges T7) c).isSome = true := by
      intro c hc hc0
      rw [pres_flushLayerChanges, hT7, pres_rootReassign, hT6, pres_setChildrenOf, hT5]
      exact materializeChildren_present info.children T4 c hc hc0
    exact ⟨hAfin, hBfin, hCfin, hDfin, hEfin, hFfin, hGfin⟩

theorem syncLayerParameters_zero (x : ProxyState) (info : WebLayerInfo) (h : info.id = 0) :
    syncLayerParameters x info = markCrashed x := by
  unfold syncLayerParameters
  dsimp only
  rw [h, ensureLayer_zero, show layersFind x.layers 0 = none from rfl]

/-- Claim C4 (amended): replaying a committed single-command batch
`[c, FlushLayerChanges]` leaves the observable scene graph (layer map, root
layer id, synthetic root container) unchanged, provided a
`SyncLayerParameters` command carries no mask, replica, image or animation
payload and does not list its own id as a child; every other command type is
unrestricted. -/
theorem replay_single_command_idempotent (s : ProxyState) (m : Msg)
    (hm : plainMsg m = true) :
    sceneGraphOf (applyBatch (applyBatch s m) m) = sceneGraphOf (applyBatch s m) := by
  rw [applyBatch_eq (applyBatch s m) m, ensureRootLayer_of_some _ (rc_isSome_applyBatch s m),
    applyBatch_eq s m]
  cases m with
  | DeleteLayer lid =>
    show sceneGraphOf (flushLayerChanges (deleteLayer (flushLayerChanges (deleteLayer (ensureRootLayer s) lid)) lid)) = sceneGraphOf (flushLayerChanges (deleteLayer (ensureRootLayer s) lid))
    have habs : layerByID (flushLayerChanges (deleteLayer (ensureRootLayer s) lid)) lid =
        none := by
      have h1 := pres_flushLayerChanges (deleteLayer (ensureRootLayer s) lid) lid
      rw [layerByID_deleteLayer_self] at h1
      cases h2 : layerByID (flushLayerChanges (deleteLayer (ensureRootLayer s) lid)) lid with
      | none => rfl
      | some n =>
        rw [h2] at h1
        simp at h1
    rw [deleteLayer_of_absent _ lid habs, scene_flushLayerChanges_of_empty _ rfl]
  | CreateTile lid tid scale =>
    exact withBackingStore_batch_idem s lid (storeCreateTile tid scale)
      (fun c => (c.tiles.find? (fun p => p.1 = tid)).isSome = true)
      (fun base => storeCreateTile_present tid scale base)
      (fun c h => by
        show ((swapStore c).tiles.find? (fun p => p.1 = tid)).isSome = true
        rw [tilesPresent_swapStore]
        exact h)
      (fun c h => storeCreateTile_of_present tid scale c h)
  | RemoveTile lid tid =>
    exact withBackingStore_batch_idem s lid (storeRemoveTile tid)
      (fun c => (c.tiles.find? (fun p => p.1 = tid)).isSome = false)
      (fun base => storeRemoveTile_absent tid base)
      (fun c h => by
        show ((swapStore c).tiles.find? (fun p => p.1 = tid)).isSome = false
        rw [tilesPresent_swapStore]
        exact h)
      (fun c h => storeRemoveTile_of_absent tid c h)
  | UpdateTile lid tid a b c => exact updateTile_batch_idem s lid tid a b c
  | CreateImage i b =>
    show sceneGraphOf (flushLayerChanges (createImage (flushLayerChanges (createImage (ensureRootLayer s) i b)) i b)) = sceneGraphOf (flushLayerChanges (createImage (ensureRootLayer s) i b))
    rw [scene_flushLayerChanges_of_empty _ (by rw [pb_createImage]; rfl)]
    exact scene_createImage _ i b
  | DestroyImage i =>
    show sceneGraphOf (flushLayerChanges (destroyImage (flushLayerChanges (destroyImage (ensureRootLayer s) i)) i)) = sceneGraphOf (flushLayerChanges (destroyImage (ensureRootLayer s) i))
    rw [scene_flushLayerChanges_of_empty _ rfl]
    rfl
  | SyncLayerParameters info =>
    simp only [plainMsg, Bool.and_eq_true, decide_eq_true_eq] at hm
    obtain ⟨⟨⟨⟨⟨hmaskh, hreplh⟩, hupdh⟩, himgh⟩, hanimh⟩, hselfh⟩ := hm
    by_cases hid : info.id = 0
    · show sceneGraphOf (flushLayerChanges (syncLayerParameters (flushLayerChanges (syncLayerParameters (ensureRootLayer s) info)) info)) = sceneGraphOf (flushLayerChanges (syncLayerParameters (ensureRootLayer s) info))
      rw [syncLayerParameters_zero _ info hid, scene_flushLayerChanges_of_empty _ rfl]
      exact scene_markCrashed _
    · have hinv := sync_establishes (ensureRootLayer s) info hid hselfh hreplh hmaskh
        hupdh himgh hanimh
      have hsec := sync_identity
        (flushLayerChanges (syncLayerParameters (ensureRootLayer s) info)) info
        hreplh hmaskh hupdh himgh hanimh hinv
      show sceneGraphOf (flushLayerChanges (syncLayerParameters (flushLayerChanges (syncLayerParameters (ensureRootLayer s) info)) info)) = sceneGraphOf (flushLayerChanges (syncLayerParameters (ensureRootLayer s) info))
      rw [hsec, scene_flushLayerChanges_of_empty _ rfl]
  | FlushLayerChanges =>
    show sceneGraphOf (flushLayerChanges (flushLayerChanges (flushLayerChanges (flushLayerChanges (ensureRootLayer s))))) = sceneGraphOf (flushLayerChanges (flushLayerChanges (ensureRootLayer s)))
    rw [scene_flushLayerChanges_of_empty
        (flushLayerChanges (flushLayerChanges (flushLayerChanges (ensureRootLayer s)))) rfl,
      scene_flushLayerChanges_of_empty
        (flushLayerChanges (flushLayerChanges (ensureRootLayer s))) rfl]
  | SetRootLayer lid =>
    show sceneGraphOf (flushLayerChanges (setRootLayerID (flushLayerChanges (setRootLayerID (ensureRootLayer s) lid)) lid)) = sceneGraphOf (flushLayerChanges (setRootLayerID (ensureRootLayer s) lid))
    rw [setRootLayerID_same _ lid (by rw [rootID_flushLayerChanges, rootID_setRootLayerID]),
      scene_flushLayerChanges_of_empty _ rfl]

/-- Witness for the amended C4 theorem: the committed batch
`[SyncLayerParameters {id := 1}, FlushLayerChanges]` (a descriptor with no
mask, replica, image or animation payload) replays without changing the
scene graph. -/
theorem replay_single_command_idempotent_witness :
    plainMsg (Msg.SyncLayerParameters { id := 1 }) = true ∧
    sceneGraphOf (applyBatch (applyBatch initialProxyState
        (Msg.SyncLayerParameters { id := 1 })) (Msg.SyncLayerParameters { id := 1 })) =
      sceneGraphOf (applyBatch initialProxyState (Msg.SyncLayerParameters { id := 1 })) :=
  ⟨by decide, replay_single_command_idempotent initialProxyState
    (Msg.SyncLayerParameters { id := 1 }) (by decide)⟩
